import Mathlib

/-!
Verification of the git branching/release-flow automation of this repository
(`tasks/git.py` and `tasks/release.py`) against its design specification.

The Python code is a sequential controller driving external processes
(`git`, `poetry`, `cz`, `gh`) through `invoke`'s `Context.run`.  We embed it
shallowly: each Python function becomes a Lean function in a state monad
`FlowM` over a `World` (git repository state, pending standard input, the
trace of performed effects, and the readme file contents).  The outcomes of
the external collaborators (network operations, merge probes, CI, stdin) are
supplied by an `Env` record, so theorems quantify over the behaviour of the
outside world.  `Context.run(cmd)` without `warn=True` raises on a failed
command (invoke's `UnexpectedExit`), which we model as `Res.raised`;
`sys.exit(n)` is `Res.exited n`; normal return is `Res.ok`.
-/

/-- Substring helper: `listStarts p l` is true when `p` is an initial
segment of `l` (Python `startswith` on char lists). -/
def listStarts : List Char → List Char → Bool
  | [], _ => true
  | _ :: _, [] => false
  | p :: ps, h :: hs => p == h && listStarts ps hs

/-- Containment of `pat` in a char list, as Python's `in` on strings. -/
def listHasSub (pat : List Char) : List Char → Bool
  | [] => pat == []
  | h :: hs => listStarts pat (h :: hs) || listHasSub pat hs

/-- Python's substring test `pat in s`. -/
def strHas (s pat : String) : Bool :=
  listHasSub pat.data s.data

/-- Python's `str.startswith`. -/
def py_startswith (s pat : String) : Bool :=
  listStarts pat.data s.data

/-- Whitespace characters removed by Python's `str.strip()`. -/
def isWs (c : Char) : Bool :=
  c == ' ' || c == '\t' || c == '\n' || c == '\r'

/-- Python's `str.strip()`: remove leading and trailing whitespace. -/
def pyStrip (s : String) : String :=
  String.mk (((s.data.dropWhile isWs).reverse.dropWhile isWs).reverse)

/-- Python's `str.lower()` (ASCII case mapping). -/
def pyLower (s : String) : String :=
  String.mk (s.data.map Char.toLower)

/-- Python's `str.upper()` (ASCII case mapping). -/
def pyUpper (s : String) : String :=
  String.mk (s.data.map Char.toUpper)

/-- Split a char list at the first double-quote character (34), returning
the part before it and the part after it. -/
def splitAtQuote : List Char → Option (List Char × List Char)
  | [] => none
  | c :: cs =>
      if c == Char.ofNat 34 then some ([], cs)
      else
        match splitAtQuote cs with
        | none => none
        | some (a, b) => some (c :: a, b)

/-- One line of the readme under the substitution
`re.sub(r^VERSION="([^"]+)", replacement, ..., flags=re.MULTILINE)` of
`GitFlow.update_readme_version`: with `re.MULTILINE` the `^` anchors at
each line start, so a line is rewritten exactly when it starts with
`VERSION="` followed by one or more non-quote characters and a closing
quote; the matched region is replaced and the rest of the line kept. -/
def rewriteVersionLine (replacement line : String) : String :=
  if py_startswith line "VERSION=\"" then
    match splitAtQuote (line.data.drop 9) with
    | some (inner, after) =>
        if inner.isEmpty then line else replacement ++ String.mk after
    | none => line
  else line

/-- Events recorded by a run of the controller: shell commands handed to
`Context.run` (rendered exactly as the source formats them), printed lines,
an invocation of the CI collaborator (`ci.dev_ci`, an external task runner),
a line read from standard input, and a file write. -/
inductive Event where
  | run : String → Event
  | print : String → Event
  | ci : Event
  | input : String → Event
  | writeFile : String → Event
deriving DecidableEq, Repr

/-- Result of one external command: exit-status flag plus captured output
streams (invoke's `Result.ok` / `.stdout` / `.stderr`). -/
structure RunResult where
  ok : Bool
  stdout : String
  stderr : String
deriving DecidableEq, Repr

/-- Outcome of the probe merge `git merge --no-commit --no-ff <base>`:
exit flag, the two output streams, and whether the command left a merge in
progress (`MERGE_HEAD` present — true after a conflict or after a clean
uncommitted automatic merge, false when e.g. the branch was already up to
date or the merge never started). -/
structure ProbeResult where
  ok : Bool
  stdout : String
  stderr : String
  mergeInProgress : Bool
deriving DecidableEq, Repr

/-- State of the git repository: checked-out branch, local branch names,
the abstract set of changes (commit ids) reachable from each branch, the
tags created so far, and whether a merge is in progress. -/
structure GitState where
  currentBranch : String
  localBranches : List String
  contents : List (String × List String)
  tags : List (String × List String)
  mergeInProgress : Bool
deriving DecidableEq, Repr

/-- Changes on a branch (empty for an unknown branch). -/
def GitState.changesOf (g : GitState) (b : String) : List String :=
  match g.contents.lookup b with
  | some cs => cs
  | none => []

/-- Replace the recorded changes of branch `b`. -/
def GitState.setChanges (g : GitState) (b : String) (cs : List String) : GitState :=
  { g with contents := (b, cs) :: g.contents.filter (fun p => p.fst != b) }

/-- Behaviour of the outside world: remote branches and their contents,
success of network operations, the probe-merge oracle (keyed by the merge
argument and the branch it runs on), CI / GitHub-CLI outcomes, and the
outputs of the version-query commands. -/
structure Env where
  remoteBranches : List String
  remoteContents : String → List String
  fetchOk : Bool
  pullOk : String → Bool
  pushOk : Bool
  probe : String → String → ProbeResult
  ghAuthOk : Bool
  ciOk : Bool
  statusPorcelain : String
  currentVersion : String
  newPipVersion : String → String

/-- Full mutable state of a run: repository, pending stdin lines, the event
trace so far, and the readme file (as lines; `none` means the file is
absent). -/
structure World where
  git : GitState
  stdin : List String
  trace : List Event
  readme : Option (List String)
deriving DecidableEq, Repr

/-- Result of running a piece of the controller: normal return, process
termination via `sys.exit`, or an uncaught exception (invoke's
`UnexpectedExit` on a failed un-warned command, or Python `ValueError`). -/
inductive Res (α : Type) where
  | ok : α → Res α
  | exited : Nat → Res α
  | raised : String → Res α
deriving DecidableEq, Repr

/-- The controller monad: a function of the environment and the world. -/
abbrev FlowM (α : Type) : Type := Env → World → Res α × World

/-- Monadic return for `FlowM`. -/
def FlowM.pure (a : α) : FlowM α := fun _ w => (Res.ok a, w)

/-- Monadic bind for `FlowM`: `sys.exit` and raised exceptions abort the
rest of the computation. -/
def FlowM.bind (x : FlowM α) (f : α → FlowM β) : FlowM β := fun env w =>
  match x env w with
  | (Res.ok a, w2) => f a env w2
  | (Res.exited n, w2) => (Res.exited n, w2)
  | (Res.raised e, w2) => (Res.raised e, w2)

instance : Monad FlowM where
  pure := FlowM.pure
  bind := FlowM.bind

/-- Append an event to the trace. -/
def emit (e : Event) : FlowM Unit := fun _ w =>
  (Res.ok (), { w with trace := w.trace ++ [e] })

/-- Python `print(...)`. -/
def pyPrint (s : String) : FlowM Unit := emit (Event.print s)

/-- Python `input()`: consume one line from standard input. -/
def readInput : FlowM String := fun _ w =>
  let s := (w.stdin.head?).getD ""
  (Res.ok s, { w with stdin := w.stdin.tail, trace := w.trace ++ [Event.input s] })

/-- Python `sys.exit(n)`. -/
def sysExit (n : Nat) : FlowM α := fun _ w => (Res.exited n, w)

/-- An uncaught Python exception. -/
def raiseExc (msg : String) : FlowM α := fun _ w => (Res.raised msg, w)

/-- The shell commands the controller issues, one constructor per command
shape appearing in the source. -/
inductive Cmd where
  | fetch : Cmd
  | branchList : String → Cmd
  | lsRemoteHeads : String → Cmd
  | switch : String → Cmd
  | switchTrack : String → Cmd
  | switchCreate : String → Cmd
  | pull : String → Cmd
  | mergeProbe : String → Cmd
  | mergeAbort : Cmd
  | mergeNoFF : String → String → Cmd
  | mergeFF : String → Cmd
  | mergeSquash : String → Cmd
  | mergeDefault : String → Cmd
  | branchDeleteD : String → Cmd
  | statusPorcelain : Cmd
  | revParseHead : Cmd
  | gitAdd : String → Cmd
  | gitCommit : String → Cmd
  | commitAmendNoEdit : Cmd
  | gitTag : String → Cmd
  | tagAnnotated : String → Cmd
  | resetHard : String → Cmd
  | push : String → Cmd
  | pushAtomic : String → String → Cmd
  | pushForceUpstream : String → Cmd
  | gitCliff : String → Cmd
  | czChangelog : String → Cmd
  | czBump : String → Cmd
  | poetryVersionShort : Cmd
  | poetryVersionDryRun : String → Cmd
  | poetryVersionBump : String → Cmd
  | ghAuthStatus : Cmd
  | ghPrCreate : String → String → String → String → Cmd
deriving DecidableEq, Repr

/-- The exact command string the source passes to `Context.run` (f-string
interpolation becomes concatenation; \x27 is the single-quote character). -/
def Cmd.render : Cmd → String
  | .fetch => "git fetch origin"
  | .branchList b => "git branch --list " ++ b
  | .lsRemoteHeads b => "git ls-remote --heads origin " ++ b
  | .switch b => "git switch " ++ b
  | .switchTrack b => "git switch --track origin/" ++ b
  | .switchCreate b => "git switch -c " ++ b
  | .pull b => "git pull origin " ++ b
  | .mergeProbe base => "git merge --no-commit --no-ff " ++ base
  | .mergeAbort => "git merge --abort"
  | .mergeNoFF h m => "git merge --no-ff " ++ h ++ " -m \x27" ++ m ++ "\x27"
  | .mergeFF h => "git merge --ff " ++ h
  | .mergeSquash h => "git merge --squash " ++ h
  | .mergeDefault h => "git merge " ++ h
  | .branchDeleteD b => "git branch -D " ++ b
  | .statusPorcelain => "git status --porcelain"
  | .revParseHead => "git rev-parse --abbrev-ref HEAD"
  | .gitAdd f => "git add " ++ f
  | .gitCommit m => "git commit -m \x27" ++ m ++ "\x27"
  | .commitAmendNoEdit => "git commit --amend --no-edit"
  | .gitTag v => "git tag " ++ v
  | .tagAnnotated t => "git tag -a " ++ t ++ " -m \x27🔖 Release " ++ t ++ "\x27"
  | .resetHard t => "git reset --hard " ++ t
  | .push b => "git push origin " ++ b
  | .pushAtomic b t => "git push origin " ++ b ++ " --atomic " ++ t
  | .pushForceUpstream b => "git push --set-upstream origin " ++ b ++ " --force"
  | .gitCliff t => "git-cliff --tag " ++ t
  | .czChangelog v => "cz changelog --unreleased-version=" ++ v
  | .czBump inc => "cz bump --files-only --increment " ++ inc
  | .poetryVersionShort => "poetry version --short"
  | .poetryVersionDryRun t => "poetry version " ++ t ++ " --dry-run --short"
  | .poetryVersionBump t => "poetry version " ++ t
  | .ghAuthStatus => "gh auth status --active"
  | .ghPrCreate h b t bd =>
      "gh pr create --head " ++ h ++ " --base " ++ b ++ " --title \x27" ++ t ++
        "\x27 --body \x27" ++ bd ++ "\x27"

/-- Semantics of one command against the repository state, an embedding of
the behaviour of the external tools.  Query commands report via stdout
(branch-existence queries answer with a marker line or the empty string);
`git switch` requires the branch to exist, `git switch -c` that it does
not; `git branch -D` refuses to delete a missing or checked-out branch;
merges union the head branch's changes into the current branch; the probe
merge and the abort manipulate the merge-in-progress flag; network
commands succeed as the environment dictates. -/
def Cmd.sem : Cmd → Env → GitState → RunResult × GitState
  | .fetch, env, g => (⟨env.fetchOk, "", ""⟩, g)
  | .branchList b, _, g =>
      (⟨true, if g.localBranches.contains b then "local" else "", ""⟩, g)
  | .lsRemoteHeads b, env, g =>
      (⟨true, if env.remoteBranches.contains b then "remote" else "", ""⟩, g)
  | .switch b, _, g =>
      if g.localBranches.contains b then (⟨true, "", ""⟩, { g with currentBranch := b })
      else (⟨false, "", ""⟩, g)
  | .switchTrack b, env, g =>
      if env.remoteBranches.contains b && !g.localBranches.contains b then
        (⟨true, "", ""⟩,
          { g with currentBranch := b, localBranches := b :: g.localBranches,
                   contents := (b, env.remoteContents b) :: g.contents })
      else (⟨false, "", ""⟩, g)
  | .switchCreate b, _, g =>
      if g.localBranches.contains b then (⟨false, "", ""⟩, g)
      else (⟨true, "", ""⟩,
        { g with currentBranch := b, localBranches := b :: g.localBranches,
                 contents := (b, g.changesOf g.currentBranch) :: g.contents })
  | .pull b, env, g =>
      if env.pullOk b then
        (⟨true, "", ""⟩,
          g.setChanges g.currentBranch (g.changesOf g.currentBranch ++ env.remoteContents b))
      else (⟨false, "", ""⟩, g)
  | .mergeProbe base, env, g =>
      let p := env.probe base g.currentBranch
      (⟨p.ok, p.stdout, p.stderr⟩, { g with mergeInProgress := p.mergeInProgress })
  | .mergeAbort, _, g =>
      if g.mergeInProgress then (⟨true, "", ""⟩, { g with mergeInProgress := false })
      else (⟨false, "", ""⟩, g)
  | .mergeNoFF h _, _, g =>
      if g.localBranches.contains h then
        (⟨true, "", ""⟩,
          g.setChanges g.currentBranch (g.changesOf g.currentBranch ++ g.changesOf h))
      else (⟨false, "", ""⟩, g)
  | .mergeFF h, _, g =>
      if g.localBranches.contains h then
        (⟨true, "", ""⟩,
          g.setChanges g.currentBranch (g.changesOf g.currentBranch ++ g.changesOf h))
      else (⟨false, "", ""⟩, g)
  | .mergeSquash h, _, g =>
      if g.localBranches.contains h then
        (⟨true, "", ""⟩,
          g.setChanges g.currentBranch (g.changesOf g.currentBranch ++ g.changesOf h))
      else (⟨false, "", ""⟩, g)
  | .mergeDefault h, _, g =>
      if g.localBranches.contains h then
        (⟨true, "", ""⟩,
          g.setChanges g.currentBranch (g.changesOf g.currentBranch ++ g.changesOf h))
      else (⟨false, "", ""⟩, g)
  | .branchDeleteD b, _, g =>
      if g.localBranches.contains b && !(b == g.currentBranch) then
        (⟨true, "", ""⟩, { g with localBranches := g.localBranches.erase b })
      else (⟨false, "", ""⟩, g)
  | .statusPorcelain, env, g => (⟨true, env.statusPorcelain, ""⟩, g)
  | .revParseHead, _, g => (⟨true, g.currentBranch, ""⟩, g)
  | .gitAdd _, _, g => (⟨true, "", ""⟩, g)
  | .gitCommit _, _, g => (⟨true, "", ""⟩, g)
  | .commitAmendNoEdit, _, g => (⟨true, "", ""⟩, g)
  | .gitTag v, _, g =>
      (⟨true, "", ""⟩, { g with tags := (v, g.changesOf g.currentBranch) :: g.tags })
  | .tagAnnotated t, _, g =>
      (⟨true, "", ""⟩, { g with tags := (t, g.changesOf g.currentBranch) :: g.tags })
  | .resetHard t, _, g =>
      (⟨true, "", ""⟩,
        match g.tags.lookup t with
        | some cs => g.setChanges g.currentBranch cs
        | none => g)
  | .push _, env, g => (⟨env.pushOk, "", ""⟩, g)
  | .pushAtomic _ _, env, g => (⟨env.pushOk, "", ""⟩, g)
  | .pushForceUpstream _, env, g => (⟨env.pushOk, "", ""⟩, g)
  | .gitCliff _, _, g => (⟨true, "", ""⟩, g)
  | .czChangelog _, _, g => (⟨true, "", ""⟩, g)
  | .czBump _, _, g => (⟨true, "", ""⟩, g)
  | .poetryVersionShort, env, g => (⟨true, env.currentVersion, ""⟩, g)
  | .poetryVersionDryRun t, env, g => (⟨true, env.newPipVersion t, ""⟩, g)
  | .poetryVersionBump _, _, g => (⟨true, "", ""⟩, g)
  | .ghAuthStatus, env, g => (⟨env.ghAuthOk, "", ""⟩, g)
  | .ghPrCreate _ _ _ _, _, g => (⟨true, "", ""⟩, g)

/-- Embedding of `Context.run(cmd, warn=True)`: the command's result is
returned to the caller whether or not it failed. -/
def runWarn (c : Cmd) : FlowM RunResult := fun env w =>
  let (r, g) := c.sem env w.git
  (Res.ok r, { w with git := g, trace := w.trace ++ [Event.run c.render] })

/-- Embedding of `Context.run(cmd)` without `warn`: a failed command makes
invoke raise `UnexpectedExit`, which no function in the source catches. -/
def runStrict (c : Cmd) : FlowM RunResult := fun env w =>
  let (r, g) := c.sem env w.git
  let w2 := { w with git := g, trace := w.trace ++ [Event.run c.render] }
  if r.ok then (Res.ok r, w2) else (Res.raised ("UnexpectedExit: " ++ c.render), w2)

/-- Embedding of `ci.dev_ci(c)`: the CI verification collaborator, an
external task runner whose sub-commands are run un-warned, so a failure
raises. -/
def ciDevCi : FlowM Unit := fun env w =>
  let w2 := { w with trace := w.trace ++ [Event.ci] }
  if env.ciOk then (Res.ok (), w2) else (Res.raised "UnexpectedExit: ci.dev_ci", w2)

/-- Read the readme file: `none` models `FileNotFoundError`. -/
def readReadme : FlowM (Option (List String)) := fun _ w => (Res.ok w.readme, w)

/-- Write the readme file. -/
def writeReadme (lines : List String) : FlowM Unit := fun _ w =>
  (Res.ok (),
   { w with readme := some lines,
            trace := w.trace ++ [Event.writeFile "README.md"] })

/-- Module constant `readme_file` of `tasks/git.py`. -/
def readme_file : String := "README.md"

/-- Module constant `dev_branch` (same value in `tasks/git.py` and
`tasks/release.py`). -/
def dev_branch : String := "dev"

/-- Module constant `main_branch` (same value in both modules). -/
def main_branch : String := "main"

/-- Module constant `BUMP_EMOJI`. -/
def BUMP_EMOJI : String := "🔖"

/-- Module constant `BUMP_VERSION_PROVIDER` (the tool used to bump
versions). -/
def BUMP_VERSION_PROVIDER : String := "commitizen"

namespace GitFlow

/-- Embedding of `GitFlow.get_current_branch`. -/
def get_current_branch : FlowM String := do
  let r ← runStrict .revParseHead
  FlowM.pure (pyStrip r.stdout)

/-- Embedding of `GitFlow.assert_no_uncommitted`. -/
def assert_no_uncommitted : FlowM Unit := do
  let r ← runWarn .statusPorcelain
  let result := pyStrip r.stdout
  if result != "" then do
    pyPrint "❌ Warning: You have uncommitted changes. Aborting."
    sysExit 1
  else FlowM.pure ()
  pyPrint "✅ No uncommitted changes found."

/-- Embedding of `GitFlow.git_merge`: with a message a `--no-ff` merge,
otherwise a `--ff` merge. -/
def git_merge (head : String) (message : String := "") : FlowM Unit := do
  if message != "" then do
    let _ ← runStrict (.mergeNoFF head message)
    FlowM.pure ()
  else do
    let _ ← runStrict (.mergeFF head)
    FlowM.pure ()

/-- Embedding of `GitFlow.assert_version_type` (`tasks/git.py`): validate a
requested increment against the provider's accepted set; an unknown
provider raises `ValueError`, an invalid type prints and exits 1. -/
def assert_version_type (version_type provider : String) : FlowM Unit := do
  let valid_types ←
    if provider == "poetry" then
      FlowM.pure ["patch", "minor", "major", "prepatch", "preminor", "premajor", "prerelease"]
    else if provider == "commitizen" then
      FlowM.pure ["patch", "minor", "major"]
    else
      raiseExc ("ValueError: Unknown BUMP_VERSION_PROVIDER: " ++ provider)
  if !(valid_types.contains version_type) then do
    pyPrint ("❌ Invalid version type: " ++ version_type ++ ". Must be one of: " ++
      String.intercalate ", " valid_types ++ ".")
    sysExit 1
  else FlowM.pure ()

/-- Embedding of `GitFlow.get_current_version`. -/
def get_current_version : FlowM String := do
  let r ← runStrict .poetryVersionShort
  FlowM.pure (pyStrip r.stdout)

/-- Embedding of `GitFlow.get_new_pip_version`: validate against the
configured provider, lower-case the increment for commitizen, re-validate
against poetry's set, then query poetry's dry run. -/
def get_new_pip_version (version_type : String) : FlowM String := do
  assert_version_type version_type BUMP_VERSION_PROVIDER
  let version_type := if BUMP_VERSION_PROVIDER == "commitizen" then pyLower version_type
    else version_type
  assert_version_type version_type "poetry"
  let r ← runStrict (.poetryVersionDryRun version_type)
  FlowM.pure (pyStrip r.stdout)

/-- Embedding of `GitFlow.get_new_version`: the pip version with a leading
`v`. -/
def get_new_version (version_type : String) : FlowM String := do
  let p ← get_new_pip_version version_type
  FlowM.pure ("v" ++ p)

/-- Embedding of `GitFlow.get_release_branch`
(`branch_prefix_release = "release/"`). -/
def get_release_branch (version : String) : String := "release/" ++ version

/-- Embedding of `GitFlow.git_switch_branch`: fetch, query local and
remote existence, then switch (pulling when a remote twin exists), track
the remote branch, or create a new branch from HEAD. -/
def git_switch_branch (branch_name : String) : FlowM Unit := do
  pyPrint ("👟 Switching to branch " ++ branch_name)
  let _ ← runStrict .fetch
  let bl ← runStrict (.branchList branch_name)
  let exists_locally := pyStrip bl.stdout
  let remote_branch := "origin/" ++ branch_name
  let lr ← runStrict (.lsRemoteHeads branch_name)
  let remote_exists := pyStrip lr.stdout
  if exists_locally != "" then do
    let _ ← runStrict (.switch branch_name)
    if remote_exists != "" then do
      pyPrint ("Updating " ++ branch_name ++ " from " ++ remote_branch)
      let _ ← runStrict (.pull branch_name)
      FlowM.pure ()
    else FlowM.pure ()
  else
    if remote_exists != "" then do
      pyPrint ("Creating and tracking " ++ branch_name ++ " from " ++ remote_branch)
      let _ ← runStrict (.switchTrack branch_name)
      FlowM.pure ()
    else do
      pyPrint ("Creating new branch " ++ branch_name ++ " from current HEAD")
      let _ ← runStrict (.switchCreate branch_name)
      FlowM.pure ()

/-- Embedding of `GitFlow.update_readme_version`: rewrite the
`VERSION="..."` marker; exit 1 when nothing changed or the file is
missing (`FileNotFoundError`). -/
def update_readme_version (new_version : String) : FlowM Unit := do
  pyPrint ("👟 Updating README version to " ++ new_version ++ "\n")
  let file ← readReadme
  match file with
  | none => do
      pyPrint ("Error: The file \x27" ++ readme_file ++ "\x27 does not exist.")
      sysExit 1
  | some content => do
      let replacement := "VERSION=\"" ++ new_version ++ "\""
      let new_content := content.map (rewriteVersionLine replacement)
      if new_content == content then do
        pyPrint ("Error: Could not find or update the \x27VERSION\x27 variable in \x27" ++
          readme_file ++ "\x27.")
        sysExit 1
      else FlowM.pure ()
      writeReadme new_content

/-- Embedding of `GitFlow.update_changelog`. -/
def update_changelog (new_version : String) : FlowM Unit := do
  pyPrint ("👟 Updating changelog for version " ++ new_version)
  let _ ← runStrict (.czChangelog new_version)
  FlowM.pure ()

/-- Embedding of `GitFlow.bump_version`: validate, query the prospective
versions, apply the provider's mutating bump, then rewrite the readme. -/
def bump_version (increment provider : String) : FlowM Unit := do
  assert_version_type increment provider
  let new_tag_version ← get_new_version increment
  let new_pip_version ← get_new_pip_version increment
  pyPrint ("👟 Bumping version to " ++ new_tag_version ++ "\n")
  if provider == "poetry" then do
    let _ ← runStrict (.poetryVersionBump increment)
    FlowM.pure ()
  else if provider == "commitizen" then do
    update_changelog new_tag_version
    let _ ← runStrict (.czBump (pyUpper increment))
    FlowM.pure ()
  else
    raiseExc ("ValueError: Unknown BUMP_VERSION_PROVIDER: " ++ provider)
  update_readme_version new_pip_version

/-- Embedding of `GitFlow.get_feature_branch_name`
(`branch_prefix_feature = "feat/"`). -/
def get_feature_branch_name (feature_name : String) : String := "feat/" ++ feature_name

/-- Embedding of `GitFlow.get_pull_request_branch`
(`branch_prefix_pr = "pr/"`). -/
def get_pull_request_branch (feature_branch : String) : String := "pr/" ++ feature_branch

/-- Embedding of `GitFlow.get_fix_branch_name`
(`branch_prefix_bugfix = "fix/"`). -/
def get_fix_branch_name (fix_name : String) : String := "fix/" ++ fix_name

/-- Embedding of `GitFlow.get_release_branch_name`. -/
def get_release_branch_name (version : String) : String := "release/" ++ version

/-- Embedding of `GitFlow.is_feature_branch`. -/
def is_feature_branch (branch_name : String) : Bool :=
  py_startswith branch_name "feat/"

/-- Embedding of `GitFlow.is_fix_branch`. -/
def is_fix_branch (branch_name : String) : Bool :=
  py_startswith branch_name "fix/"

/-- Embedding of `GitFlow.switch_from`. -/
def switch_from (base new : String) : FlowM Unit := do
  assert_no_uncommitted
  git_switch_branch base
  let _ ← runStrict (.pull base)
  git_switch_branch new

/-- Embedding of `GitFlow.branch_delete`: a warned `git branch -D`, so a
failed deletion is swallowed. -/
def branch_delete (branch_name : String) : FlowM Unit := do
  pyPrint ("👟 Deleting branch " ++ branch_name)
  let _ ← runWarn (.branchDeleteD branch_name)
  FlowM.pure ()

/-- Embedding of `GitFlow.git_pull`. -/
def git_pull (branch : String) : FlowM Unit := do
  pyPrint "👟 Pulling latest changes from remote"
  let _ ← runStrict (.pull branch)
  FlowM.pure ()

/-- Embedding of `GitFlow.git_tag`. -/
def git_tag (version : String) : FlowM Unit := do
  pyPrint ("👟 Creating Git tag " ++ version)
  let _ ← runStrict (.gitTag version)
  FlowM.pure ()

/-- Embedding of `GitFlow.git_push`: plain push, or an atomic push with a
tag. -/
def git_push (branch : String) (tag : String := "") : FlowM Unit := do
  pyPrint ("👟 Pushing branch " ++ branch ++ " to remote")
  if tag != "" then do
    let _ ← runStrict (.pushAtomic branch tag)
    FlowM.pure ()
  else do
    let _ ← runStrict (.push branch)
    FlowM.pure ()

/-- Embedding of `GitFlow.merge_test`: switch to `head`, pull it, create
the disposable branch `temp/<head>`, attempt the probe merge capturing
stdout+stderr, abort (warned), switch back to `base`, delete the
disposable branch (warned), then report by the marker substring. -/
def merge_test (base head : String) : FlowM Unit := do
  let tmp_head := "temp/" ++ head
  git_switch_branch head
  let _ ← runStrict (.pull head)
  git_switch_branch tmp_head
  pyPrint ("👟 Testing merge conflicts " ++ head ++ " -> " ++ base)
  let result ← runWarn (.mergeProbe base)
  let output := result.stdout ++ result.stderr
  let _ ← runWarn .mergeAbort
  git_switch_branch base
  branch_delete tmp_head
  if strHas output "Automatic merge went well" then
    pyPrint "✅ Merge test was successful."
  else do
    pyPrint ("🛑Merge test " ++ base ++ " -> " ++ head ++
      " failed. Resolve Merge Conflict.\nRun: git merge --no-commit " ++ base)
    sysExit 1

end GitFlow

namespace GithubCli

/-- Embedding of `GithubCli.assert_github_cli`. -/
def assert_github_cli : FlowM Unit := do
  let result ← runWarn .ghAuthStatus
  if !result.ok then do
    pyPrint "❌ Warning: GitHub CLI is not authenticated. Aborting."
    sysExit 1
  else FlowM.pure ()
  pyPrint "✅ GitHub CLI is authenticated."

/-- Embedding of `GithubCli.create_pr`. -/
def create_pr (head_branch base_branch title body : String) : FlowM Unit := do
  pyPrint "👟 Creating PR"
  let _ ← runStrict (.ghPrCreate head_branch base_branch title body)
  FlowM.pure ()

end GithubCli

namespace GitFlow

/-- Embedding of `GitFlow.flow_finish`: merge-probe the task branch
against `dev`, stage a `pr/` branch from `dev`, merge the task branch into
it, run CI, then either merge the PR branch into `dev` and push, or push
the PR branch and open a pull request; finally delete both branches
(warned deletions). -/
def flow_finish (task_type : String) (pr_title : String := "") : FlowM Unit := do
  let task_branch ← get_current_branch
  if !(["feature", "fix"].contains task_type) then do
    pyPrint ("Invalid task type: " ++ task_type)
    sysExit 1
  else FlowM.pure ()
  if task_type == "feature" then do
    if !(is_feature_branch task_branch) then do
      pyPrint ("Current branch is not a feature branch: " ++ task_branch)
      sysExit 1
    else FlowM.pure ()
  else if task_type == "fix" then do
    if !(is_fix_branch task_branch) then do
      pyPrint ("Current branch is not a fix branch: " ++ task_branch)
      sysExit 1
    else FlowM.pure ()
  else FlowM.pure ()
  let pr_branch := get_pull_request_branch task_branch
  merge_test task_branch dev_branch
  switch_from dev_branch pr_branch
  let cur ← get_current_branch
  if cur != pr_branch then do
    pyPrint ("Failed to switch to pull request branch: " ++ pr_branch)
    sysExit 1
  else FlowM.pure ()
  git_merge task_branch
  ciDevCi
  if pr_title == "" then do
    git_switch_branch dev_branch
    git_merge pr_branch
    git_push dev_branch
  else do
    git_push pr_branch
    GithubCli.assert_github_cli
    GithubCli.create_pr pr_branch dev_branch pr_title ""
  branch_delete pr_branch
  branch_delete task_branch

/-- Embedding of `GitFlow.flow_release_start`: version computation and
pre-flight checks, release-branch creation, bump and changelog commit, the
interactive gate, CI and the two merge probes interleaved with the real
merges into `dev` and `main`, tagging, merge-back and cleanup. -/
def flow_release_start (increment : String) : FlowM Unit := do
  assert_version_type increment BUMP_VERSION_PROVIDER
  let new_version ← get_new_version increment
  let release_branch := get_release_branch_name new_version
  let cur ← get_current_branch
  if cur != dev_branch then do
    pyPrint ("❌ You must be on the " ++ dev_branch ++ " branch to start a release.")
    sysExit 1
  else FlowM.pure ()
  git_pull dev_branch
  pyPrint ("New version for release: " ++ new_version)
  assert_no_uncommitted
  git_switch_branch release_branch
  pyPrint "\n👟 Bumping version & updating changelog\n"
  bump_version increment BUMP_VERSION_PROVIDER
  let _ ← runStrict (.gitAdd "pyproject.toml")
  let _ ← runStrict (.gitAdd "docs/changelog.md")
  let _ ← runStrict (.gitAdd readme_file)
  let _ ← runStrict (.gitCommit "docs: update changelog for release")
  pyPrint ("🔥 The changelog has been updated and committed.\n" ++
    "Please review and commit them with: git commit --amend --no-edit")
  pyPrint "❓️ Do you want to continue the release process? (y/n)"
  let ans ← readInput
  if pyLower (pyStrip ans) != "y" then do
    pyPrint "❌ Release process aborted."
    sysExit 1
  else FlowM.pure ()
  ciDevCi
  merge_test release_branch dev_branch
  git_switch_branch dev_branch
  git_merge release_branch ("merge: " ++ release_branch ++ " -> " ++ dev_branch)
  merge_test dev_branch main_branch
  git_switch_branch main_branch
  git_pull main_branch
  let _ ← runStrict (.mergeSquash dev_branch)
  let _ ← runStrict (.gitCommit (BUMP_EMOJI ++ ": " ++ release_branch))
  git_tag new_version
  git_switch_branch dev_branch
  git_merge main_branch ("merge: " ++ main_branch ++ "/" ++ new_version ++ " -> " ++ dev_branch)
  branch_delete release_branch
  pyPrint ("✅ Release flow successful. After review, push the changes with:\n" ++
    "inv git.flow-release-finish")

/-- Embedding of `GitFlow.flow_release_create_pr`: bump on a release
branch, interactive gate, merge into a temporary main branch for CI, push
the release branch and open a PR, then clean up local branches. -/
def flow_release_create_pr (increment : String) : FlowM Unit := do
  assert_version_type increment BUMP_VERSION_PROVIDER
  let new_version ← get_new_version increment
  let release_branch := get_release_branch_name new_version
  let tmp_main_branch := "temp_" ++ new_version ++ "/" ++ main_branch
  let cur ← get_current_branch
  if cur != dev_branch then do
    pyPrint ("❌ You must be on the " ++ dev_branch ++ " branch to start a release.")
    sysExit 1
  else FlowM.pure ()
  assert_no_uncommitted
  pyPrint ("New version for release: " ++ new_version)
  git_pull dev_branch
  git_switch_branch release_branch
  pyPrint "👟 Bumping version & updating changelog"
  bump_version increment BUMP_VERSION_PROVIDER
  let _ ← runStrict (.gitAdd "pyproject.toml")
  let _ ← runStrict (.gitAdd "docs/changelog.md")
  let _ ← runStrict (.gitAdd readme_file)
  let _ ← runStrict (.gitCommit "docs: update changelog for release")
  pyPrint ("🔥 The changelog has been updated and committed.\n" ++
    "Please review and commit them with: git commit --amend --no-edit")
  pyPrint "❓️ Do you want to continue the release process? (y/n)"
  let ans ← readInput
  if pyLower (pyStrip ans) != "y" then do
    pyPrint "❌ Release process aborted."
    sysExit 1
  else FlowM.pure ()
  git_switch_branch main_branch
  git_pull main_branch
  git_switch_branch tmp_main_branch
  git_merge release_branch ("merge: " ++ release_branch ++ " -> " ++ tmp_main_branch)
  ciDevCi
  git_switch_branch release_branch
  git_push release_branch
  GithubCli.assert_github_cli
  GithubCli.create_pr release_branch main_branch (BUMP_EMOJI ++ " Release " ++ new_version)
    ("This PR merges the " ++ release_branch ++ " branch into the " ++ main_branch ++ " branch.")
  git_switch_branch dev_branch
  branch_delete tmp_main_branch
  branch_delete release_branch

end GitFlow

/-- Embedding of the module-level task `flow_feature_start`. -/
def flow_feature_start (feature_name : String) : FlowM Unit :=
  GitFlow.switch_from dev_branch (GitFlow.get_feature_branch_name feature_name)

/-- Embedding of the module-level task `flow_feature_finish`: run
`flow_finish` with task type `feature` and no PR title. -/
def flow_feature_finish : FlowM Unit :=
  GitFlow.flow_finish "feature"

namespace Release

/-- Module constant `change_log_file` of `tasks/release.py`. -/
def change_log_file : String := "docs/changelog.md"

/-- Embedding of `release.get_current_branch`. -/
def get_current_branch : FlowM String := do
  let r ← runStrict .revParseHead
  FlowM.pure (pyStrip r.stdout)

/-- Embedding of `release.assert_no_uncommitted`. -/
def assert_no_uncommitted : FlowM Unit := do
  let r ← runWarn .statusPorcelain
  let result := pyStrip r.stdout
  if result != "" then do
    pyPrint "❌ Warning: You have uncommitted changes. Aborting."
    sysExit 1
  else FlowM.pure ()
  pyPrint "✅ No uncommitted changes found."

/-- Embedding of `release.assert_version_type`: a single accepted set, no
provider distinction. -/
def assert_version_type (version_type : String) : FlowM Unit := do
  let valid_types := ["patch", "minor", "major", "prepatch", "preminor", "premajor",
    "prerelease"]
  if !(valid_types.contains version_type) then do
    pyPrint ("❌ Invalid version type: " ++ version_type ++ ". Must be one of: " ++
      String.intercalate ", " valid_types ++ ".")
    sysExit 1
  else FlowM.pure ()

/-- Embedding of `release.get_current_version`. -/
def get_current_version : FlowM String := do
  let r ← runStrict .poetryVersionShort
  FlowM.pure (pyStrip r.stdout)

/-- Embedding of `release.get_release_branch`. -/
def get_release_branch (version : String) : String := "release/v" ++ version

/-- Embedding of `release.git_switch_branch`: query local existence, then
no-op when already current, plain switch when the branch exists locally,
otherwise create it from HEAD; the remote is never consulted. -/
def git_switch_branch (branch_name : String) : FlowM Unit := do
  pyPrint ("👟 Switching to branch " ++ branch_name)
  let bl ← runStrict (.branchList branch_name)
  let branch_exists := pyStrip bl.stdout
  let cur ← get_current_branch
  if branch_name == cur then FlowM.pure ()
  else if branch_exists != "" then do
    let _ ← runStrict (.switch branch_name)
    FlowM.pure ()
  else do
    let _ ← runStrict (.switchCreate branch_name)
    FlowM.pure ()

/-- Embedding of `release.assert_merge_test`: like `GitFlow.merge_test`
but with `git merge --abort` and `git branch -D temp/<head>` run without
`warn=True`, so either of them failing raises. -/
def assert_merge_test (base head : String) : FlowM Unit := do
  let tmp_head := "temp/" ++ head
  git_switch_branch head
  let _ ← runStrict (.pull head)
  git_switch_branch tmp_head
  pyPrint "👟 Testing merge conflicts...\n"
  let result ← runWarn (.mergeProbe base)
  let output := result.stdout ++ result.stderr
  let _ ← runStrict .mergeAbort
  git_switch_branch base
  let _ ← runStrict (.branchDeleteD tmp_head)
  if strHas output "Automatic merge went well" then
    pyPrint "✅ Merge test was successful."
  else do
    pyPrint ("🛑Merge test " ++ base ++ " -> " ++ head ++
      " failed. Resolve Merge Conflict.\nRun: git merge --no-commit " ++ base)
    sysExit 1

/-- Embedding of the `release` task of `tasks/release.py`: interactive
gate (declining exits 0), changelog generation on a release branch, a
second gate (declining prints manual instructions and exits 0), then
tagging, hard-resetting `main` to the tag, force-pushing, and merging the
release branch back into `dev`. -/
def release : FlowM Unit := do
  let version ← get_current_version
  let release_branch := get_release_branch version
  let tag := "v" ++ version
  pyPrint ("\n👟 Creating " ++ version ++ " release\n")
  pyPrint "Do you want to proceed? [y/n]"
  let ans ← readInput
  if pyLower (pyStrip ans) != "y" then do
    pyPrint "Aborting release."
    sysExit 0
  else FlowM.pure ()
  assert_no_uncommitted
  git_switch_branch dev_branch
  let _ ← runStrict (.pull dev_branch)
  git_switch_branch release_branch
  let _ ← runStrict (.gitCliff tag)
  let _ ← runStrict (.gitAdd change_log_file)
  pyPrint ("❓️ Created " ++ change_log_file ++ ": Do you want to commit it? [y/n]")
  let ans2 ← readInput
  if pyLower (pyStrip ans2) == "y" then do
    let _ ← runStrict (.gitCommit "doc: update changelog.md")
    let _ ← runStrict (.gitCliff tag)
    let _ ← runStrict (.gitAdd change_log_file)
    let _ ← runStrict .commitAmendNoEdit
    let _ ← runStrict (.tagAnnotated tag)
    git_switch_branch main_branch
    let _ ← runStrict (.pull main_branch)
    let _ ← runStrict (.resetHard tag)
    let _ ← runStrict (.pushForceUpstream main_branch)
    let _ ← runStrict (.push tag)
    git_switch_branch dev_branch
    let _ ← runStrict (.mergeDefault release_branch)
    let _ ← runStrict (.branchDeleteD release_branch)
    let _ ← runStrict (.push dev_branch)
    FlowM.pure ()
  else do
    pyPrint ("Aborting commit.\n" ++
      "Update the changelog file.\n" ++
      "Then run:\n" ++
      "git add " ++ change_log_file ++ "\n" ++
      "git commit -m \x27chore: update changelog.md\x27\n" ++
      "git tag -a " ++ tag ++ " -m \x27🔖 Release " ++ tag ++ "\x27\n" ++
      "git switch " ++ main_branch ++ "\n" ++
      "git pull origin " ++ main_branch ++ "\n" ++
      "git reset --hard " ++ tag ++ "\n" ++
      "git push --set-upstream origin " ++ main_branch ++ " --force\n" ++
      "git push origin " ++ tag ++ "\n" ++
      "git switch " ++ dev_branch ++ "\n" ++
      "git merge " ++ release_branch ++ "\n" ++
      "git push origin " ++ dev_branch ++ "\n")
    sysExit 0

end Release

/-- Arbitrary but fixed environment used by concrete evaluations: both
long-lived branches exist on the remote, all network operations succeed,
the probe merge reports a clean automatic merge leaving a merge in
progress, CI and the GitHub CLI succeed, the working tree is clean. -/
def envA : Env where
  remoteBranches := ["dev", "main"]
  remoteContents := fun _ => []
  fetchOk := true
  pullOk := fun _ => true
  pushOk := true
  probe := fun _ _ =>
    ⟨true, "Automatic merge went well; stopped before committing as requested", "", true⟩
  ghAuthOk := true
  ciOk := true
  statusPorcelain := ""
  currentVersion := "0.1.0"
  newPipVersion := fun _ => "0.1.1"

/-- Repository state with the two long-lived branches plus a feature
branch, checked out on the feature branch. -/
def stateFeat : GitState where
  currentBranch := "feat/login"
  localBranches := ["feat/login", "dev", "main"]
  contents := [("feat/login", ["c-dev", "c-feat"]), ("dev", ["c-dev"]), ("main", [])]
  tags := []
  mergeInProgress := false

/-- World for concrete evaluations: feature state, affirmative stdin, a
readme with a version marker line. -/
def worldFeat : World where
  git := stateFeat
  stdin := ["y", "y"]
  trace := []
  readme := some ["# Title", "VERSION=\"0.1.0\"", "rest"]

/-- Environment whose probe merge finds the branch already up to date:
the command succeeds, reports nothing mergeable, and leaves no merge in
progress (`MERGE_HEAD` absent), so a following `git merge --abort`
fails. -/
def envUpToDate : Env :=
  { envA with probe := fun _ _ => ⟨true, "Already up to date.", "", false⟩ }

/-- Repository state checked out on `dev`. -/
def stateOnDev : GitState :=
  { stateFeat with currentBranch := "dev" }

/-- World checked out on `dev` with affirmative stdin. -/
def worldOnDev : World :=
  { worldFeat with git := stateOnDev }

/-- Environment like `envA` but with the feature branch also present on
the remote. -/
def envB : Env :=
  { envA with remoteBranches := ["dev", "main", "feat/login"] }

/-- Is this event a read from standard input? -/
def isInputB : Event → Bool
  | Event.input _ => true
  | _ => false

/-- Events that mutate nothing: printed lines and stdin reads.  Every
shell command, CI invocation and file write counts as (potentially)
mutating. -/
def nonMutB : Event → Bool
  | Event.print _ => true
  | Event.input _ => true
  | _ => false

/-- Events that are merge commands or an invocation of the CI
collaborator. -/
def isMergeOrCi : Event → Bool
  | Event.ci => true
  | Event.run s => py_startswith s "git merge"
  | _ => false

/-- The events that follow the last stdin read of a trace (empty when the
trace contains no read). -/
def afterLastInput (l : List Event) : List Event :=
  if l.any isInputB then (l.reverse.takeWhile (fun e => !isInputB e)).reverse else []

/-- Reduction of `pure` applications, used by symbolic-execution proofs. -/
@[simp] theorem FlowM.pure_apply (a : α) (env : Env) (w : World) :
    (FlowM.pure a : FlowM α) env w = (Res.ok a, w) := rfl

/-- The monad `pure` is `FlowM.pure`. -/
@[simp] theorem FlowM.monad_pure (a : α) : (Pure.pure a : FlowM α) = FlowM.pure a := rfl

/-- The monad `bind` is `FlowM.bind`. -/
@[simp] theorem FlowM.monad_bind (x : FlowM α) (f : α → FlowM β) :
    (x >>= f) = FlowM.bind x f := rfl

/-- Reduction of `bind` applications. -/
@[simp] theorem FlowM.bind_apply (x : FlowM α) (f : α → FlowM β) (env : Env) (w : World) :
    FlowM.bind x f env w =
      match x env w with
      | (Res.ok a, w2) => f a env w2
      | (Res.exited n, w2) => (Res.exited n, w2)
      | (Res.raised e, w2) => (Res.raised e, w2) := rfl

/-- Reduction of `emit`. -/
@[simp] theorem emit_apply (e : Event) (env : Env) (w : World) :
    emit e env w = (Res.ok (), { w with trace := w.trace ++ [e] }) := rfl

/-- Reduction of `pyPrint`. -/
@[simp] theorem pyPrint_apply (s : String) (env : Env) (w : World) :
    pyPrint s env w = (Res.ok (), { w with trace := w.trace ++ [Event.print s] }) := rfl

/-- Reduction of `readInput`. -/
@[simp] theorem readInput_apply (env : Env) (w : World) :
    readInput env w = (Res.ok ((w.stdin.head?).getD ""),
      { w with stdin := w.stdin.tail,
               trace := w.trace ++ [Event.input ((w.stdin.head?).getD "")] }) := rfl

/-- Reduction of `sysExit`. -/
@[simp] theorem sysExit_apply (n : Nat) (env : Env) (w : World) :
    (sysExit n : FlowM α) env w = (Res.exited n, w) := rfl

/-- Reduction of `raiseExc`. -/
@[simp] theorem raiseExc_apply (msg : String) (env : Env) (w : World) :
    (raiseExc msg : FlowM α) env w = (Res.raised msg, w) := rfl

/-- Reduction of `runWarn`. -/
@[simp] theorem runWarn_apply (c : Cmd) (env : Env) (w : World) :
    runWarn c env w = (Res.ok (c.sem env w.git).1,
      { w with git := (c.sem env w.git).2, trace := w.trace ++ [Event.run c.render] }) := rfl

/-- Reduction of `runStrict`. -/
@[simp] theorem runStrict_apply (c : Cmd) (env : Env) (w : World) :
    runStrict c env w =
      (if (c.sem env w.git).1.ok then Res.ok (c.sem env w.git).1
       else Res.raised ("UnexpectedExit: " ++ c.render),
       { w with git := (c.sem env w.git).2, trace := w.trace ++ [Event.run c.render] }) := by
  simp only [runStrict]
  split <;> simp_all

/-- Reduction of `ciDevCi`. -/
@[simp] theorem ciDevCi_apply (env : Env) (w : World) :
    ciDevCi env w = (if env.ciOk then Res.ok () else Res.raised "UnexpectedExit: ci.dev_ci",
      { w with trace := w.trace ++ [Event.ci] }) := by
  simp only [ciDevCi]
  split <;> simp_all

/-- Reduction of `readReadme`. -/
@[simp] theorem readReadme_apply (env : Env) (w : World) :
    readReadme env w = (Res.ok w.readme, w) := rfl

/-- Reduction of `writeReadme`. -/
@[simp] theorem writeReadme_apply (lines : List String) (env : Env) (w : World) :
    writeReadme lines env w =
      (Res.ok (),
       { w with readme := some lines,
                trace := w.trace ++ [Event.writeFile "README.md"] }) := rfl

/-- Rewriting the changes of one branch keeps the checked-out branch. -/
@[simp] theorem GitState.setChanges_currentBranch (g : GitState) (b : String) (cs : List String) :
    (g.setChanges b cs).currentBranch = g.currentBranch := rfl

/-- Rewriting the changes of one branch keeps the local branch list. -/
@[simp] theorem GitState.setChanges_localBranches (g : GitState) (b : String) (cs : List String) :
    (g.setChanges b cs).localBranches = g.localBranches := rfl

/-- Rewriting the changes of one branch keeps the merge flag. -/
@[simp] theorem GitState.setChanges_mergeInProgress (g : GitState) (b : String) (cs : List String) :
    (g.setChanges b cs).mergeInProgress = g.mergeInProgress := rfl

/-- Rewriting the changes of one branch keeps the tags. -/
@[simp] theorem GitState.setChanges_tags (g : GitState) (b : String) (cs : List String) :
    (g.setChanges b cs).tags = g.tags := rfl

/-- Reading back changes after a rewrite. -/
@[simp] theorem GitState.changesOf_setChanges (g : GitState) (b x : String) (cs : List String) :
    (g.setChanges b cs).changesOf x = if x == b then cs else g.changesOf x := by
  simp only [GitState.setChanges, GitState.changesOf, List.lookup]
  by_cases h : (x == b) = true
  · simp [h]
  · simp only [h, Bool.false_eq_true, if_false]
    induction g.contents with
    | nil => simp
    | cons p rest ih =>
        by_cases hx : (x == p.1) = true
        · have hxp : x = p.1 := by simpa using hx
          have hpb : (p.1 != b) = true := by
            simp only [bne_iff_ne]
            intro he
            exact absurd (by simp [hxp, he] : (x == b) = true) h
          simp [List.filter_cons, hpb, List.lookup, hx]
        · by_cases hpb : (p.1 != b) = true
          · simp only [List.filter_cons, hpb, if_true, List.lookup, hx]
            exact ih
          · simp only [List.filter_cons, hpb, Bool.false_eq_true, if_false, List.lookup, hx]
            exact ih

/-- Claim C9: `assert_version_type` accepts exactly patch/minor/major for
the commitizen provider and the seven poetry increments for the poetry
provider; an invalid type exits with status 1; any provider outside
poetry/commitizen raises a `ValueError` (a configuration error) instead of
exiting. -/
theorem C9_assert_version_type :
    (∀ env w v, (GitFlow.assert_version_type v "commitizen" env w).1 = Res.ok () ↔
      v ∈ ["patch", "minor", "major"]) ∧
    (∀ env w v, (GitFlow.assert_version_type v "poetry" env w).1 = Res.ok () ↔
      v ∈ ["patch", "minor", "major", "prepatch", "preminor", "premajor", "prerelease"]) ∧
    (∀ env w v, (GitFlow.assert_version_type v "commitizen" env w).1 = Res.ok () ∨
      (GitFlow.assert_version_type v "commitizen" env w).1 = Res.exited 1) ∧
    (∀ env w v p, p ≠ "poetry" → p ≠ "commitizen" →
      (GitFlow.assert_version_type v p env w).1 =
        Res.raised ("ValueError: Unknown BUMP_VERSION_PROVIDER: " ++ p)) := by
  refine ⟨?_, ?_, ?_, ?_⟩
  · intro env w v
    by_cases h : v ∈ ["patch", "minor", "major"]
    · simp +decide [GitFlow.assert_version_type, h]
    · simp +decide [GitFlow.assert_version_type, h]
  · intro env w v
    by_cases h : v ∈ ["patch", "minor", "major", "prepatch", "preminor", "premajor",
        "prerelease"]
    · simp +decide [GitFlow.assert_version_type, h]
    · simp +decide [GitFlow.assert_version_type, h]
  · intro env w v
    by_cases h : v ∈ ["patch", "minor", "major"]
    · simp +decide [GitFlow.assert_version_type, h]
    · simp +decide [GitFlow.assert_version_type, h]
  · intro env w v p hp hc
    have hp2 : (p == "poetry") = false := by
      simp [hp]
    have hc2 : (p == "commitizen") = false := by
      simp [hc]
    simp [GitFlow.assert_version_type, hp2, hc2]

/-- Witness for C9: concrete instances — patch/commitizen succeeds,
prerelease/commitizen exits 1, prerelease/poetry succeeds, and an unknown
provider raises. -/
theorem C9_assert_version_type_witness :
    (GitFlow.assert_version_type "patch" "commitizen" envA worldFeat).1 = Res.ok () ∧
    (GitFlow.assert_version_type "prerelease" "commitizen" envA worldFeat).1 = Res.exited 1 ∧
    (GitFlow.assert_version_type "prerelease" "poetry" envA worldFeat).1 = Res.ok () ∧
    (GitFlow.assert_version_type "patch" "gradle" envA worldFeat).1 =
      Res.raised "ValueError: Unknown BUMP_VERSION_PROVIDER: gradle" := by
  refine ⟨?_, ?_, ?_, ?_⟩
  · exact (C9_assert_version_type.1 envA worldFeat "patch").2 (by decide)
  · rcases (C9_assert_version_type.2.2.1 envA worldFeat "prerelease") with h | h
    · exact absurd ((C9_assert_version_type.1 envA worldFeat "prerelease").1 h) (by decide)
    · exact h
  · exact (C9_assert_version_type.2.1 envA worldFeat "prerelease").2 (by decide)
  · exact C9_assert_version_type.2.2.2 envA worldFeat "patch" "gradle"
      (by decide) (by decide)

set_option maxHeartbeats 3200000 in
/-- Specification of one run of `GitFlow.merge_test` in a benign
environment (fetches and pulls succeed, both real branches exist locally
and on the remote, the disposable branch does not exist yet): the probe
reports success exactly when the captured combined output contains the
clean-merge marker, it exits 1 with the remediation message otherwise, and
on both paths it ends on `base` with the disposable branch gone and no
merge in progress. -/
theorem merge_test_spec (env : Env) (w : World) (base head : String)
    (hf : env.fetchOk = true)
    (hp : ∀ x, env.pullOk x = true)
    (hhead : head ∈ w.git.localBranches)
    (hbase : base ∈ w.git.localBranches)
    (h1 : head ∈ env.remoteBranches)
    (h2 : base ∈ env.remoteBranches)
    (htmp : ("temp/" ++ head) ∉ w.git.localBranches)
    (htmpr : ("temp/" ++ head) ∉ env.remoteBranches)
    (hne : base ≠ "temp/" ++ head) :
    (strHas ((env.probe base ("temp/" ++ head)).stdout ++
        (env.probe base ("temp/" ++ head)).stderr) "Automatic merge went well" = true →
      (GitFlow.merge_test base head env w).1 = Res.ok () ∧
      Event.print "✅ Merge test was successful." ∈ (GitFlow.merge_test base head env w).2.trace) ∧
    (strHas ((env.probe base ("temp/" ++ head)).stdout ++
        (env.probe base ("temp/" ++ head)).stderr) "Automatic merge went well" = false →
      (GitFlow.merge_test base head env w).1 = Res.exited 1 ∧
      Event.print ("🛑Merge test " ++ base ++ " -> " ++ head ++
          " failed. Resolve Merge Conflict.\nRun: git merge --no-commit " ++ base) ∈
        (GitFlow.merge_test base head env w).2.trace) ∧
    (GitFlow.merge_test base head env w).2.git.currentBranch = base ∧
    (GitFlow.merge_test base head env w).2.git.localBranches = w.git.localBranches ∧
    (GitFlow.merge_test base head env w).2.git.mergeInProgress = false := by
  cases hm : strHas ((env.probe base ("temp/" ++ head)).stdout ++
      (env.probe base ("temp/" ++ head)).stderr) "Automatic merge went well" <;>
  by_cases hmp : (env.probe base ("temp/" ++ head)).mergeInProgress = true <;>
  refine ⟨fun hh => ⟨?_, ?_⟩, fun hh => ⟨?_, ?_⟩, ?_, ?_, ?_⟩ <;>
  simp_all +decide [GitFlow.merge_test, GitFlow.git_switch_branch, GitFlow.branch_delete,
    Cmd.sem, hf, hp, hhead, hbase, htmp, htmpr, hne, h1, h2, Ne.symm hne]

set_option maxHeartbeats 1600000 in
/-- Specification of one run of `release.assert_merge_test` when the probe
merge leaves a merge in progress (so the un-warned `git merge --abort`
succeeds), in a benign environment: it returns success or exits 1
according to the marker, and on both paths it ends on `base` with the
disposable branch deleted and no merge in progress. -/
theorem assert_merge_test_spec (env : Env) (w : World) (base head : String)
    (hp : ∀ x, env.pullOk x = true)
    (hhead : head ∈ w.git.localBranches)
    (hbase : base ∈ w.git.localBranches)
    (htmp : ("temp/" ++ head) ∉ w.git.localBranches)
    (hne : base ≠ "temp/" ++ head)
    (hne2 : head ≠ "temp/" ++ head)
    (hsc : pyStrip w.git.currentBranch = w.git.currentBranch)
    (hsh : pyStrip head = head)
    (hstmp : pyStrip ("temp/" ++ head) = "temp/" ++ head)
    (hmp : (env.probe base ("temp/" ++ head)).mergeInProgress = true) :
    ((Release.assert_merge_test base head env w).1 = Res.ok () ∨
      (Release.assert_merge_test base head env w).1 = Res.exited 1) ∧
    (Release.assert_merge_test base head env w).2.git.currentBranch = base ∧
    (Release.assert_merge_test base head env w).2.git.localBranches = w.git.localBranches ∧
    (Release.assert_merge_test base head env w).2.git.mergeInProgress = false := by
  by_cases hcur : head = w.git.currentBranch <;>
  by_cases hm : strHas ((env.probe base ("temp/" ++ head)).stdout ++
      (env.probe base ("temp/" ++ head)).stderr) "Automatic merge went well" = true <;>
  (have hnes := Ne.symm hne
   have hne2s := Ne.symm hne2
   refine ⟨?_, ?_, ?_, ?_⟩) <;>
  simp_all +decide [Release.assert_merge_test, Release.git_switch_branch,
    Release.get_current_branch, Cmd.sem]

/-- Claim C1 (counterexample): with branches `base = feat/login`,
`head = dev` and a probe merge that terminates without leaving a merge in
progress (`Already up to date.`), `release.assert_merge_test` raises out
of its un-warned `git merge --abort`: the process terminates while the
repository is still checked out on `temp/dev` and the disposable branch
`temp/dev` still exists — the claimed unconditional cleanup does not
happen. -/
theorem C1_counterexample :
    (Release.assert_merge_test "feat/login" "dev" envUpToDate worldFeat).1 =
      Res.raised "UnexpectedExit: git merge --abort" ∧
    "temp/dev" ∈ (Release.assert_merge_test "feat/login" "dev" envUpToDate worldFeat).2.git.localBranches ∧
    (Release.assert_merge_test "feat/login" "dev" envUpToDate worldFeat).2.git.currentBranch =
      "temp/dev" := by
  decide

/-- Claim C1 (amended): `GitFlow.merge_test` always aborts the probe
merge, switches back to `base` and deletes `temp/<head>` before returning
or exiting, on both the success and the conflict path;
`release.assert_merge_test` does the same only when the probe merge leaves
a merge in progress — otherwise its un-warned `git merge --abort` raises
and `temp/<head>` is left behind (see the counterexample). -/
theorem C1_amended :
    (∀ (env : Env) (w : World) (base head : String),
      env.fetchOk = true → (∀ x, env.pullOk x = true) →
      head ∈ w.git.localBranches → base ∈ w.git.localBranches →
      head ∈ env.remoteBranches → base ∈ env.remoteBranches →
      ("temp/" ++ head) ∉ w.git.localBranches → ("temp/" ++ head) ∉ env.remoteBranches →
      base ≠ "temp/" ++ head →
      ((GitFlow.merge_test base head env w).1 = Res.ok () ∨
        (GitFlow.merge_test base head env w).1 = Res.exited 1) ∧
      (GitFlow.merge_test base head env w).2.git.currentBranch = base ∧
      (GitFlow.merge_test base head env w).2.git.localBranches = w.git.localBranches ∧
      (GitFlow.merge_test base head env w).2.git.mergeInProgress = false) ∧
    (∀ (env : Env) (w : World) (base head : String),
      (∀ x, env.pullOk x = true) →
      head ∈ w.git.localBranches → base ∈ w.git.localBranches →
      ("temp/" ++ head) ∉ w.git.localBranches →
      base ≠ "temp/" ++ head → head ≠ "temp/" ++ head →
      pyStrip w.git.currentBranch = w.git.currentBranch →
      pyStrip head = head → pyStrip ("temp/" ++ head) = "temp/" ++ head →
      (env.probe base ("temp/" ++ head)).mergeInProgress = true →
      ((Release.assert_merge_test base head env w).1 = Res.ok () ∨
        (Release.assert_merge_test base head env w).1 = Res.exited 1) ∧
      (Release.assert_merge_test base head env w).2.git.currentBranch = base ∧
      (Release.assert_merge_test base head env w).2.git.localBranches = w.git.localBranches ∧
      (Release.assert_merge_test base head env w).2.git.mergeInProgress = false) := by
  constructor
  · intro env w base head hf hp hhead hbase h1 h2 htmp htmpr hne
    obtain ⟨hok, hfail, hcur, hloc, hmip⟩ :=
      merge_test_spec env w base head hf hp hhead hbase h1 h2 htmp htmpr hne
    refine ⟨?_, hcur, hloc, hmip⟩
    cases hm : strHas ((env.probe base ("temp/" ++ head)).stdout ++
        (env.probe base ("temp/" ++ head)).stderr) "Automatic merge went well"
    · exact Or.inr (hfail hm).1
    · exact Or.inl (hok hm).1
  · intro env w base head hp hhead hbase htmp hne hne2 hsc hsh hstmp hmp
    exact assert_merge_test_spec env w base head hp hhead hbase htmp hne hne2 hsc hsh hstmp hmp

/-- Witness for C1 (amended): both parts applied at the concrete feature
scenario. -/
theorem C1_amended_witness :
    ((GitFlow.merge_test "feat/login" "dev" envB worldFeat).1 = Res.ok () ∨
      (GitFlow.merge_test "feat/login" "dev" envB worldFeat).1 = Res.exited 1) ∧
    (GitFlow.merge_test "feat/login" "dev" envB worldFeat).2.git.currentBranch = "feat/login" ∧
    "temp/dev" ∉ (GitFlow.merge_test "feat/login" "dev" envB worldFeat).2.git.localBranches ∧
    ((Release.assert_merge_test "feat/login" "dev" envA worldFeat).1 = Res.ok () ∨
      (Release.assert_merge_test "feat/login" "dev" envA worldFeat).1 = Res.exited 1) ∧
    (Release.assert_merge_test "feat/login" "dev" envA worldFeat).2.git.currentBranch =
      "feat/login" := by
  obtain ⟨hA, hB⟩ := C1_amended
  obtain ⟨r1, c1, l1, m1⟩ := hA envB worldFeat "feat/login" "dev" (by decide) (fun x => rfl)
    (by decide) (by decide) (by decide) (by decide) (by decide) (by decide) (by decide)
  obtain ⟨r2, c2, l2, m2⟩ := hB envA worldFeat "feat/login" "dev" (fun x => rfl)
    (by decide) (by decide) (by decide) (by decide) (by decide) (by decide) (by decide)
    (by decide) (by decide)
  refine ⟨r1, c1, ?_, r2, c2⟩
  rw [l1]
  decide

/-- Claim C2: in a benign environment, `GitFlow.merge_test` reports
success exactly when the captured combined stdout+stderr of the probe
merge contains the exact marker substring `Automatic merge went well`;
for any other captured content it prints the remediation instructions and
exits with status 1. -/
theorem C2_merge_test_marker (env : Env) (w : World) (base head : String)
    (hf : env.fetchOk = true) (hp : ∀ x, env.pullOk x = true)
    (hhead : head ∈ w.git.localBranches) (hbase : base ∈ w.git.localBranches)
    (h1 : head ∈ env.remoteBranches) (h2 : base ∈ env.remoteBranches)
    (htmp : ("temp/" ++ head) ∉ w.git.localBranches)
    (htmpr : ("temp/" ++ head) ∉ env.remoteBranches)
    (hne : base ≠ "temp/" ++ head) :
    ((GitFlow.merge_test base head env w).1 = Res.ok () ↔
      strHas ((env.probe base ("temp/" ++ head)).stdout ++
        (env.probe base ("temp/" ++ head)).stderr) "Automatic merge went well" = true) ∧
    (strHas ((env.probe base ("temp/" ++ head)).stdout ++
        (env.probe base ("temp/" ++ head)).stderr) "Automatic merge went well" = false →
      (GitFlow.merge_test base head env w).1 = Res.exited 1 ∧
      Event.print ("🛑Merge test " ++ base ++ " -> " ++ head ++
          " failed. Resolve Merge Conflict.\nRun: git merge --no-commit " ++ base) ∈
        (GitFlow.merge_test base head env w).2.trace) := by
  obtain ⟨hok, hfail, -, -, -⟩ :=
    merge_test_spec env w base head hf hp hhead hbase h1 h2 htmp htmpr hne
  refine ⟨⟨fun hres => ?_, fun hh => (hok hh).1⟩, hfail⟩
  cases hm : strHas ((env.probe base ("temp/" ++ head)).stdout ++
      (env.probe base ("temp/" ++ head)).stderr) "Automatic merge went well"
  · rw [(hfail hm).1] at hres
    cases hres
  · rfl

/-- Witness for C2: the concrete feature scenario, where the probe output
does contain the marker and the probe reports success. -/
theorem C2_merge_test_marker_witness :
    (GitFlow.merge_test "feat/login" "dev" envB worldFeat).1 = Res.ok () := by
  exact ((C2_merge_test_marker envB worldFeat "feat/login" "dev" (by decide) (fun x => rfl)
    (by decide) (by decide) (by decide) (by decide) (by decide) (by decide) (by decide)).1).2
    (by decide)

/-- Claim C10: `GitFlow.branch_delete` runs `git branch -D` with
`warn=True`, so it returns normally for every branch name and every
outcome of the deletion (the branch is removed only when it exists and is
not checked out); consequently the PR-title path of `flow_finish` reports
overall success even though its deletion of the still-checked-out PR
branch fails: the run below ends in `Res.ok` with `pr/feat/login` still
present. -/
theorem C10_branch_delete_total :
    (∀ (env : Env) (w : World) (b : String),
      (GitFlow.branch_delete b env w).1 = Res.ok () ∧
      (GitFlow.branch_delete b env w).2.git.localBranches =
        (if w.git.localBranches.contains b && !(b == w.git.currentBranch)
         then w.git.localBranches.erase b else w.git.localBranches)) ∧
    (GitFlow.flow_finish "feature" "feat: add login" envA worldFeat).1 = Res.ok () ∧
    "pr/feat/login" ∈
      (GitFlow.flow_finish "feature" "feat: add login" envA worldFeat).2.git.localBranches := by
  refine ⟨fun env w b => ⟨?_, ?_⟩, ?_, ?_⟩
  · simp [GitFlow.branch_delete, Cmd.sem]
  · simp only [GitFlow.branch_delete, FlowM.monad_bind, FlowM.bind_apply, pyPrint_apply,
      runWarn_apply, FlowM.pure_apply, Cmd.sem]
    split
    · simp_all
    · simp_all
  · decide
  · decide

/-- Claim C3 (counterexample): declining the first interactive
confirmation of the `release` task terminates the process with exit code
0, not 1 — a user-declined confirmation does not exit 1 in every flow. -/
theorem C3_counterexample :
    (Release.release envA { worldFeat with stdin := ["n"] }).1 = Res.exited 0 := by
  decide

/-- Claim C3 (amended): validation failures, merge conflicts and missing
readme markers exit with status 1, and so does a declined confirmation in
`GitFlow.flow_release_start`; but a declined confirmation in the `release`
task of `tasks/release.py` exits with status 0. -/
theorem C3_amended :
    (∀ (env : Env) (w : World),
      pyLower (pyStrip ((w.stdin.head?).getD "")) ≠ "y" →
      (Release.release env w).1 = Res.exited 0) ∧
    (GitFlow.flow_release_start "patch" envA { worldOnDev with stdin := ["n"] }).1 =
      Res.exited 1 ∧
    (∀ (env : Env) (w : World) (v : String), v ∉ ["patch", "minor", "major"] →
      (GitFlow.assert_version_type v "commitizen" env w).1 = Res.exited 1) ∧
    (∀ (env : Env) (w : World) (nv : String), w.readme = none →
      (GitFlow.update_readme_version nv env w).1 = Res.exited 1) ∧
    (∀ (env : Env) (w : World) (base head : String),
      env.fetchOk = true → (∀ x, env.pullOk x = true) →
      head ∈ w.git.localBranches → base ∈ w.git.localBranches →
      head ∈ env.remoteBranches → base ∈ env.remoteBranches →
      ("temp/" ++ head) ∉ w.git.localBranches → ("temp/" ++ head) ∉ env.remoteBranches →
      base ≠ "temp/" ++ head →
      strHas ((env.probe base ("temp/" ++ head)).stdout ++
        (env.probe base ("temp/" ++ head)).stderr) "Automatic merge went well" = false →
      (GitFlow.merge_test base head env w).1 = Res.exited 1) := by
  refine ⟨?_, ?_, ?_, ?_, ?_⟩
  · intro env w hd
    simp +decide [Release.release, Release.get_current_version, Release.get_release_branch,
      Cmd.sem, hd]
  · decide
  · intro env w v hv
    simp +decide [GitFlow.assert_version_type, hv]
  · intro env w nv hr
    simp +decide [GitFlow.update_readme_version, hr]
  · intro env w base head hf hp hhead hbase h1 h2 htmp htmpr hne hm
    exact ((merge_test_spec env w base head hf hp hhead hbase h1 h2 htmp htmpr hne).2.1 hm).1

/-- Witness for C3 (amended): all universally quantified parts applied at
concrete inputs. -/
theorem C3_amended_witness :
    (Release.release envA { worldFeat with stdin := ["no"] }).1 = Res.exited 0 ∧
    (GitFlow.assert_version_type "prerelease" "commitizen" envA worldFeat).1 = Res.exited 1 ∧
    (GitFlow.update_readme_version "0.1.1" envA { worldFeat with readme := none }).1 =
      Res.exited 1 ∧
    (GitFlow.merge_test "feat/login" "dev" { envB with
        probe := fun _ _ => ⟨false, "", "CONFLICT (content): Merge conflict", true⟩ }
      worldFeat).1 = Res.exited 1 := by
  obtain ⟨h1, -, h3, h4, h5⟩ := C3_amended
  refine ⟨h1 envA { worldFeat with stdin := ["no"] } (by decide), ?_, ?_, ?_⟩
  · exact h3 envA worldFeat "prerelease" (by decide)
  · exact h4 envA { worldFeat with readme := none } "0.1.1" rfl
  · exact h5 _ worldFeat "feat/login" "dev" (by decide) (fun x => rfl) (by decide) (by decide)
      (by decide) (by decide) (by decide) (by decide) (by decide) (by decide)

/-- A line without the `VERSION="` marker is left unchanged by the readme
rewrite. -/
theorem map_rewrite_no_marker (r : String) (lines : List String)
    (h : ∀ line ∈ lines, py_startswith line "VERSION=\"" = false) :
    lines.map (rewriteVersionLine r) = lines := by
  induction lines with
  | nil => rfl
  | cons a l ih =>
      have ha : py_startswith a "VERSION=\"" = false := h a (by simp)
      simp only [List.map_cons, rewriteVersionLine, ha, Bool.false_eq_true, if_false,
        List.cons.injEq, true_and]
      exact ih (fun x hx => h x (by simp [hx]))

/-- A failed prefix match against a long enough initial segment stays
failed after appending more characters. -/
theorem listStarts_append_false (p l1 l2 : List Char)
    (h : listStarts p l1 = false) (hlen : p.length ≤ l1.length) :
    listStarts p (l1 ++ l2) = false := by
  induction p generalizing l1 with
  | nil => simp [listStarts] at h
  | cons c cs ih =>
      cases l1 with
      | nil => simp at hlen
      | cons a as =>
          cases hca : (c == a)
          · simp [listStarts, hca]
          · have h2 : listStarts cs as = false := by
              simpa [listStarts, hca] using h
            have hlen2 : cs.length ≤ as.length := by
              simpa using hlen
            simp [listStarts, hca, ih as h2 hlen2]

/-- Claim C7: for every increment accepted by the configured commitizen
provider, when the readme has no `VERSION="..."` line (or is absent),
`bump_version` exits with status 1, and at that point the provider's
mutating bump command (`cz bump`) has already run; moreover no `git
commit` command is ever run by `bump_version` itself. -/
theorem C7_bump_version_readme (env : Env) (w : World) (increment : String)
    (hinc : increment ∈ ["patch", "minor", "major"])
    (hrd : w.readme = none ∨ ∃ lines, w.readme = some lines ∧
      ∀ line ∈ lines, py_startswith line "VERSION=\"" = false)
    (ht : w.trace = []) :
    (GitFlow.bump_version increment "commitizen" env w).1 = Res.exited 1 ∧
    Event.run ("cz bump --files-only --increment " ++ pyUpper increment) ∈
      (GitFlow.bump_version increment "commitizen" env w).2.trace ∧
    (∀ s, Event.run s ∈ (GitFlow.bump_version increment "commitizen" env w).2.trace →
      py_startswith s "git commit" = false) := by
  simp only [List.mem_cons, List.mem_singleton, List.not_mem_nil, or_false] at hinc
  rcases hrd with hnone | ⟨lines, hsome, hnomark⟩
  · rcases hinc with rfl | rfl | rfl <;>
    refine ⟨?_, ?_, fun s hs => ?_⟩ <;>
    first
    | simp +decide [GitFlow.bump_version, GitFlow.assert_version_type, GitFlow.get_new_version,
        GitFlow.get_new_pip_version, GitFlow.update_changelog, GitFlow.update_readme_version,
        BUMP_VERSION_PROVIDER, readme_file, Cmd.sem, hnone, ht]
    | (simp +decide [GitFlow.bump_version, GitFlow.assert_version_type, GitFlow.get_new_version,
         GitFlow.get_new_pip_version, GitFlow.update_changelog, GitFlow.update_readme_version,
         BUMP_VERSION_PROVIDER, readme_file, Cmd.sem, hnone, ht] at hs
       rcases hs with rfl | rfl | rfl <;>
       first
       | decide
       | (simp only [Cmd.render, py_startswith, String.data_append]
          exact listStarts_append_false _ _ _ (by decide) (by decide)))
  · have hmapl : ∀ r : String, lines.map (rewriteVersionLine r) = lines :=
      fun r => map_rewrite_no_marker r lines hnomark
    rcases hinc with rfl | rfl | rfl <;>
    refine ⟨?_, ?_, fun s hs => ?_⟩ <;>
    first
    | simp +decide [GitFlow.bump_version, GitFlow.assert_version_type, GitFlow.get_new_version,
        GitFlow.get_new_pip_version, GitFlow.update_changelog, GitFlow.update_readme_version,
        BUMP_VERSION_PROVIDER, readme_file, Cmd.sem, hsome, hmapl, ht]
    | (simp +decide [GitFlow.bump_version, GitFlow.assert_version_type, GitFlow.get_new_version,
         GitFlow.get_new_pip_version, GitFlow.update_changelog, GitFlow.update_readme_version,
         BUMP_VERSION_PROVIDER, readme_file, Cmd.sem, hsome, hmapl, ht] at hs
       rcases hs with rfl | rfl | rfl <;>
       first
       | decide
       | (simp only [Cmd.render, py_startswith, String.data_append]
          exact listStarts_append_false _ _ _ (by decide) (by decide)))

/-- Witness for C7: a readme without the marker line makes
`bump_version "patch"` exit 1 after the `cz bump` mutation has run. -/
theorem C7_bump_version_readme_witness :
    (GitFlow.bump_version "patch" "commitizen" envA
      { worldFeat with readme := some ["# Title", "no marker here"] }).1 = Res.exited 1 ∧
    Event.run ("cz bump --files-only --increment " ++ pyUpper "patch") ∈
      (GitFlow.bump_version "patch" "commitizen" envA
        { worldFeat with readme := some ["# Title", "no marker here"] }).2.trace := by
  obtain ⟨h1, h2, h3⟩ := C7_bump_version_readme envA
    { worldFeat with readme := some ["# Title", "no marker here"] } "patch"
    (by decide) (Or.inr ⟨["# Title", "no marker here"], rfl, by decide⟩) rfl
  exact ⟨h1, h2⟩

/-- Claim C4 (counterexample): switching to the branch that is already
current is not a no-op in `GitFlow.git_switch_branch` — with `dev` checked
out, `git_switch_branch "dev"` still fetches, switches and fast-pulls. -/
theorem C4_counterexample :
    Event.run "git pull origin dev" ∈
      (GitFlow.git_switch_branch "dev" envA worldOnDev).2.trace ∧
    Event.run "git switch dev" ∈
      (GitFlow.git_switch_branch "dev" envA worldOnDev).2.trace := by
  decide

set_option maxHeartbeats 1600000 in
/-- Claim C4 (amended): the two branch-switch implementations behave as
follows, and in each terminating-normally case the current branch equals
the target afterwards.  `GitFlow.git_switch_branch` has no
current-branch no-op check: it always fetches; if the branch exists
locally it switches and additionally fast-pulls when a same-named remote
branch exists; else if the branch exists on the remote it creates a local
tracking branch; else it creates a new branch from the current HEAD.
`release.git_switch_branch` is a no-op when the target equals the current
branch; otherwise it switches when the branch exists locally and creates
it from HEAD when it does not, never consulting the remote. -/
theorem C4_amended :
    (∀ (env : Env) (w : World) (b : String),
      env.fetchOk = true → env.pullOk b = true →
      b ∈ w.git.localBranches → b ∈ env.remoteBranches →
      (GitFlow.git_switch_branch b env w).1 = Res.ok () ∧
      (GitFlow.git_switch_branch b env w).2.git.currentBranch = b ∧
      (GitFlow.git_switch_branch b env w).2.trace = w.trace ++
        [Event.print ("👟 Switching to branch " ++ b), Event.run "git fetch origin",
         Event.run ("git branch --list " ++ b), Event.run ("git ls-remote --heads origin " ++ b),
         Event.run ("git switch " ++ b),
         Event.print ("Updating " ++ b ++ " from " ++ ("origin/" ++ b)),
         Event.run ("git pull origin " ++ b)]) ∧
    (∀ (env : Env) (w : World) (b : String),
      env.fetchOk = true →
      b ∈ w.git.localBranches → b ∉ env.remoteBranches →
      (GitFlow.git_switch_branch b env w).1 = Res.ok () ∧
      (GitFlow.git_switch_branch b env w).2.git.currentBranch = b ∧
      (GitFlow.git_switch_branch b env w).2.trace = w.trace ++
        [Event.print ("👟 Switching to branch " ++ b), Event.run "git fetch origin",
         Event.run ("git branch --list " ++ b), Event.run ("git ls-remote --heads origin " ++ b),
         Event.run ("git switch " ++ b)]) ∧
    (∀ (env : Env) (w : World) (b : String),
      env.fetchOk = true →
      b ∉ w.git.localBranches → b ∈ env.remoteBranches →
      (GitFlow.git_switch_branch b env w).1 = Res.ok () ∧
      (GitFlow.git_switch_branch b env w).2.git.currentBranch = b ∧
      (GitFlow.git_switch_branch b env w).2.git.localBranches = b :: w.git.localBranches ∧
      (GitFlow.git_switch_branch b env w).2.trace = w.trace ++
        [Event.print ("👟 Switching to branch " ++ b), Event.run "git fetch origin",
         Event.run ("git branch --list " ++ b), Event.run ("git ls-remote --heads origin " ++ b),
         Event.print ("Creating and tracking " ++ b ++ " from " ++ ("origin/" ++ b)),
         Event.run ("git switch --track origin/" ++ b)]) ∧
    (∀ (env : Env) (w : World) (b : String),
      env.fetchOk = true →
      b ∉ w.git.localBranches → b ∉ env.remoteBranches →
      (GitFlow.git_switch_branch b env w).1 = Res.ok () ∧
      (GitFlow.git_switch_branch b env w).2.git.currentBranch = b ∧
      (GitFlow.git_switch_branch b env w).2.git.localBranches = b :: w.git.localBranches ∧
      (GitFlow.git_switch_branch b env w).2.trace = w.trace ++
        [Event.print ("👟 Switching to branch " ++ b), Event.run "git fetch origin",
         Event.run ("git branch --list " ++ b), Event.run ("git ls-remote --heads origin " ++ b),
         Event.print ("Creating new branch " ++ b ++ " from current HEAD"),
         Event.run ("git switch -c " ++ b)]) ∧
    (∀ (env : Env) (w : World) (b : String),
      b = w.git.currentBranch → pyStrip w.git.currentBranch = w.git.currentBranch →
      (Release.git_switch_branch b env w).1 = Res.ok () ∧
      (Release.git_switch_branch b env w).2.git = w.git ∧
      (Release.git_switch_branch b env w).2.trace = w.trace ++
        [Event.print ("👟 Switching to branch " ++ b), Event.run ("git branch --list " ++ b),
         Event.run "git rev-parse --abbrev-ref HEAD"]) ∧
    (∀ (env : Env) (w : World) (b : String),
      b ≠ w.git.currentBranch → pyStrip w.git.currentBranch = w.git.currentBranch →
      b ∈ w.git.localBranches →
      (Release.git_switch_branch b env w).1 = Res.ok () ∧
      (Release.git_switch_branch b env w).2.git.currentBranch = b ∧
      (Release.git_switch_branch b env w).2.trace = w.trace ++
        [Event.print ("👟 Switching to branch " ++ b), Event.run ("git branch --list " ++ b),
         Event.run "git rev-parse --abbrev-ref HEAD", Event.run ("git switch " ++ b)]) ∧
    (∀ (env : Env) (w : World) (b : String),
      b ≠ w.git.currentBranch → pyStrip w.git.currentBranch = w.git.currentBranch →
      b ∉ w.git.localBranches →
      (Release.git_switch_branch b env w).1 = Res.ok () ∧
      (Release.git_switch_branch b env w).2.git.currentBranch = b ∧
      (Release.git_switch_branch b env w).2.git.localBranches = b :: w.git.localBranches ∧
      (Release.git_switch_branch b env w).2.trace = w.trace ++
        [Event.print ("👟 Switching to branch " ++ b), Event.run ("git branch --list " ++ b),
         Event.run "git rev-parse --abbrev-ref HEAD", Event.run ("git switch -c " ++ b)]) := by
  refine ⟨?_, ?_, ?_, ?_, ?_, ?_, ?_⟩ <;> intro env w b
  · intro hf hpb hl hr
    refine ⟨?_, ?_, ?_⟩ <;>
    simp +decide [GitFlow.git_switch_branch, Cmd.sem, Cmd.render, hf, hpb, hl, hr]
  · intro hf hl hr
    refine ⟨?_, ?_, ?_⟩ <;>
    simp +decide [GitFlow.git_switch_branch, Cmd.sem, Cmd.render, hf, hl, hr]
  · intro hf hl hr
    refine ⟨?_, ?_, ?_, ?_⟩ <;>
    simp +decide [GitFlow.git_switch_branch, Cmd.sem, Cmd.render, hf, hl, hr]
  · intro hf hl hr
    refine ⟨?_, ?_, ?_, ?_⟩ <;>
    simp +decide [GitFlow.git_switch_branch, Cmd.sem, Cmd.render, hf, hl, hr]
  · intro hb hstr
    refine ⟨?_, ?_, ?_⟩ <;>
    simp +decide [Release.git_switch_branch, Release.get_current_branch, Cmd.sem, Cmd.render,
      hb, hstr]
  · intro hb hstr hl
    refine ⟨?_, ?_, ?_⟩ <;>
    simp +decide [Release.git_switch_branch, Release.get_current_branch, Cmd.sem, Cmd.render,
      hb, hstr, hl]
  · intro hb hstr hl
    refine ⟨?_, ?_, ?_, ?_⟩ <;>
    simp +decide [Release.git_switch_branch, Release.get_current_branch, Cmd.sem, Cmd.render,
      hb, hstr, hl]

/-- Witness for C4 (amended): concrete instances of the local+remote
GitFlow case and the no-op and create cases of the release variant. -/
theorem C4_amended_witness :
    (GitFlow.git_switch_branch "dev" envA worldFeat).1 = Res.ok () ∧
    (GitFlow.git_switch_branch "dev" envA worldFeat).2.git.currentBranch = "dev" ∧
    (Release.git_switch_branch "dev" envA worldOnDev).2.git = worldOnDev.git ∧
    (Release.git_switch_branch "release/v0.1.1" envA worldOnDev).2.git.currentBranch =
      "release/v0.1.1" := by
  obtain ⟨g1, g2, g3, g4, r1, r2, r3⟩ := C4_amended
  obtain ⟨a1, a2, a3⟩ := g1 envA worldFeat "dev" (by decide) rfl (by decide) (by decide)
  obtain ⟨b1, b2, b3⟩ := r1 envA worldOnDev "dev" (by decide) (by decide)
  obtain ⟨c1, c2, c3, c4⟩ := r3 envA worldOnDev "release/v0.1.1" (by decide) (by decide)
    (by decide)
  exact ⟨a1, a2, b2, c2⟩

/-- Claim C8 (counterexample): in the PR-title path of `flow_finish` the
branch `pr/feat/<name>` is not deleted — its `git branch -D` runs while
`pr/feat/login` is the checked-out branch, fails, and is swallowed, so the
flow ends successfully with `pr/feat/login` still present. -/
theorem C8_counterexample :
    (GitFlow.flow_finish "feature" "feat: new login page" envA worldFeat).1 = Res.ok () ∧
    "pr/feat/login" ∈
      (GitFlow.flow_finish "feature" "feat: new login page" envA worldFeat).2.git.localBranches ∧
    (GitFlow.flow_finish "feature" "feat: new login page" envA worldFeat).2.git.currentBranch =
      "pr/feat/login" := by
  decide

set_option maxHeartbeats 6400000 in
/-- Claim C8 (amended): for every feature name (with the derived branch
names distinct from the fixed branches, which holds for every real name),
starting on `feat/<name>` with `dev` lacking the feature changes, the
no-PR-title path of `flow_finish` ends on `dev` containing the changes of
`feat/<name>` with both `feat/<name>` and `pr/feat/<name>` deleted; the
PR-title path ends successfully with `feat/<name>` deleted but with
`pr/feat/<name>` still present and checked out (its deletion fails
silently). -/
theorem C8_amended :
    (∀ (name : String) (devC featC : List String) (stdin : List String)
      (rdme : Option (List String)),
      "feat/" ++ name ≠ "dev" → "feat/" ++ name ≠ "main" →
      "feat/" ++ name ≠ "temp/dev" →
      "pr/" ++ ("feat/" ++ name) ≠ "feat/" ++ name →
      "pr/" ++ ("feat/" ++ name) ≠ "dev" → "pr/" ++ ("feat/" ++ name) ≠ "main" →
      "pr/" ++ ("feat/" ++ name) ≠ "temp/dev" →
      pyStrip ("feat/" ++ name) = "feat/" ++ name →
      pyStrip ("pr/" ++ ("feat/" ++ name)) = "pr/" ++ ("feat/" ++ name) →
      GitFlow.is_feature_branch ("feat/" ++ name) = true →
      let w : World := { git := { currentBranch := "feat/" ++ name,
                                  localBranches := ["feat/" ++ name, "dev", "main"],
                                  contents := [("feat/" ++ name, devC ++ featC), ("dev", devC),
                                    ("main", [])],
                                  tags := [], mergeInProgress := false },
                         stdin := stdin, trace := [], readme := rdme }
      (GitFlow.flow_finish "feature" "" envA w).1 = Res.ok () ∧
      (GitFlow.flow_finish "feature" "" envA w).2.git.currentBranch = "dev" ∧
      (GitFlow.flow_finish "feature" "" envA w).2.git.localBranches = ["dev", "main"] ∧
      (∀ x ∈ featC, x ∈ (GitFlow.flow_finish "feature" "" envA w).2.git.changesOf "dev")) ∧
    (∀ (name : String) (devC featC : List String) (stdin : List String)
      (rdme : Option (List String)) (title : String),
      title ≠ "" →
      "feat/" ++ name ≠ "dev" → "feat/" ++ name ≠ "main" →
      "feat/" ++ name ≠ "temp/dev" →
      "pr/" ++ ("feat/" ++ name) ≠ "feat/" ++ name →
      "pr/" ++ ("feat/" ++ name) ≠ "dev" → "pr/" ++ ("feat/" ++ name) ≠ "main" →
      "pr/" ++ ("feat/" ++ name) ≠ "temp/dev" →
      pyStrip ("feat/" ++ name) = "feat/" ++ name →
      pyStrip ("pr/" ++ ("feat/" ++ name)) = "pr/" ++ ("feat/" ++ name) →
      GitFlow.is_feature_branch ("feat/" ++ name) = true →
      let w : World := { git := { currentBranch := "feat/" ++ name,
                                  localBranches := ["feat/" ++ name, "dev", "main"],
                                  contents := [("feat/" ++ name, devC ++ featC), ("dev", devC),
                                    ("main", [])],
                                  tags := [], mergeInProgress := false },
                         stdin := stdin, trace := [], readme := rdme }
      (GitFlow.flow_finish "feature" title envA w).1 = Res.ok () ∧
      (GitFlow.flow_finish "feature" title envA w).2.git.currentBranch =
        "pr/" ++ ("feat/" ++ name) ∧
      ("feat/" ++ name) ∉ (GitFlow.flow_finish "feature" title envA w).2.git.localBranches ∧
      ("pr/" ++ ("feat/" ++ name)) ∈
        (GitFlow.flow_finish "feature" title envA w).2.git.localBranches) := by
  constructor
  · intro name devC featC stdin rdme hq1 hq2 hq3 hq4 hq5 hq6 hq7 hs1 hs2 hfb w
    have b1 : ("feat/" ++ name == "dev") = false := beq_eq_false_iff_ne.mpr hq1
    have b2 : ("feat/" ++ name == "main") = false := beq_eq_false_iff_ne.mpr hq2
    have b3 : ("feat/" ++ name == "temp/dev") = false := beq_eq_false_iff_ne.mpr hq3
    have b4 : ("pr/" ++ ("feat/" ++ name) == "feat/" ++ name) = false :=
      beq_eq_false_iff_ne.mpr hq4
    have b5 : ("pr/" ++ ("feat/" ++ name) == "dev") = false := beq_eq_false_iff_ne.mpr hq5
    have b6 : ("pr/" ++ ("feat/" ++ name) == "main") = false := beq_eq_false_iff_ne.mpr hq6
    have b7 : ("pr/" ++ ("feat/" ++ name) == "temp/dev") = false := beq_eq_false_iff_ne.mpr hq7
    have c1 : ("dev" == "feat/" ++ name) = false := beq_eq_false_iff_ne.mpr (Ne.symm hq1)
    have c2 : ("main" == "feat/" ++ name) = false := beq_eq_false_iff_ne.mpr (Ne.symm hq2)
    have c3 : ("temp/dev" == "feat/" ++ name) = false := beq_eq_false_iff_ne.mpr (Ne.symm hq3)
    have c4 : ("feat/" ++ name == "pr/" ++ ("feat/" ++ name)) = false :=
      beq_eq_false_iff_ne.mpr (Ne.symm hq4)
    have c5 : ("dev" == "pr/" ++ ("feat/" ++ name)) = false :=
      beq_eq_false_iff_ne.mpr (Ne.symm hq5)
    have c6 : ("main" == "pr/" ++ ("feat/" ++ name)) = false :=
      beq_eq_false_iff_ne.mpr (Ne.symm hq6)
    have c7 : ("temp/dev" == "pr/" ++ ("feat/" ++ name)) = false :=
      beq_eq_false_iff_ne.mpr (Ne.symm hq7)
    refine ⟨?_, ?_, ?_, fun x hx => ?_⟩ <;>
    simp +decide [GitFlow.flow_finish, GitFlow.merge_test, GitFlow.git_switch_branch,
      GitFlow.branch_delete, GitFlow.switch_from, GitFlow.assert_no_uncommitted,
      GitFlow.get_current_branch, GitFlow.git_merge, GitFlow.git_push, GitFlow.git_pull,
      GitFlow.get_pull_request_branch, Cmd.sem, envA, w, dev_branch, main_branch,
      GitState.changesOf, List.lookup,
      hq1, hq2, hq3, hq4, hq5, hq6, hq7, hs1, hs2, hfb,
      b1, b2, b3, b4, b5, b6, b7, c1, c2, c3, c4, c5, c6, c7,
      Ne.symm hq1, Ne.symm hq2, Ne.symm hq3, Ne.symm hq4, Ne.symm hq5, Ne.symm hq6,
      Ne.symm hq7]
    simp [hx]
  · intro name devC featC stdin rdme title htitle hq1 hq2 hq3 hq4 hq5 hq6 hq7 hs1 hs2 hfb w
    have b1 : ("feat/" ++ name == "dev") = false := beq_eq_false_iff_ne.mpr hq1
    have b2 : ("feat/" ++ name == "main") = false := beq_eq_false_iff_ne.mpr hq2
    have b3 : ("feat/" ++ name == "temp/dev") = false := beq_eq_false_iff_ne.mpr hq3
    have b4 : ("pr/" ++ ("feat/" ++ name) == "feat/" ++ name) = false :=
      beq_eq_false_iff_ne.mpr hq4
    have b5 : ("pr/" ++ ("feat/" ++ name) == "dev") = false := beq_eq_false_iff_ne.mpr hq5
    have b6 : ("pr/" ++ ("feat/" ++ name) == "main") = false := beq_eq_false_iff_ne.mpr hq6
    have b7 : ("pr/" ++ ("feat/" ++ name) == "temp/dev") = false := beq_eq_false_iff_ne.mpr hq7
    have c1 : ("dev" == "feat/" ++ name) = false := beq_eq_false_iff_ne.mpr (Ne.symm hq1)
    have c2 : ("main" == "feat/" ++ name) = false := beq_eq_false_iff_ne.mpr (Ne.symm hq2)
    have c3 : ("temp/dev" == "feat/" ++ name) = false := beq_eq_false_iff_ne.mpr (Ne.symm hq3)
    have c4 : ("feat/" ++ name == "pr/" ++ ("feat/" ++ name)) = false :=
      beq_eq_false_iff_ne.mpr (Ne.symm hq4)
    have c5 : ("dev" == "pr/" ++ ("feat/" ++ name)) = false :=
      beq_eq_false_iff_ne.mpr (Ne.symm hq5)
    have c6 : ("main" == "pr/" ++ ("feat/" ++ name)) = false :=
      beq_eq_false_iff_ne.mpr (Ne.symm hq6)
    have c7 : ("temp/dev" == "pr/" ++ ("feat/" ++ name)) = false :=
      beq_eq_false_iff_ne.mpr (Ne.symm hq7)
    refine ⟨?_, ?_, ?_, ?_⟩ <;>
    simp +decide [GitFlow.flow_finish, GitFlow.merge_test, GitFlow.git_switch_branch,
      GitFlow.branch_delete, GitFlow.switch_from, GitFlow.assert_no_uncommitted,
      GitFlow.get_current_branch, GitFlow.git_merge, GitFlow.git_push, GitFlow.git_pull,
      GitFlow.get_pull_request_branch, GithubCli.assert_github_cli, GithubCli.create_pr,
      Cmd.sem, envA, w, dev_branch, main_branch, htitle,
      hq1, hq2, hq3, hq4, hq5, hq6, hq7, hs1, hs2, hfb,
      b1, b2, b3, b4, b5, b6, b7, c1, c2, c3, c4, c5, c6, c7,
      Ne.symm hq1, Ne.symm hq2, Ne.symm hq3, Ne.symm hq4, Ne.symm hq5, Ne.symm hq6,
      Ne.symm hq7]

/-- Witness for C8 (amended): both parts at the concrete `login` feature
scenario. -/
theorem C8_amended_witness :
    (GitFlow.flow_finish "feature" "" envA worldFeat).1 = Res.ok () ∧
    (GitFlow.flow_finish "feature" "" envA worldFeat).2.git.currentBranch = "dev" ∧
    (GitFlow.flow_finish "feature" "feat: login work" envA worldFeat).1 = Res.ok () ∧
    "pr/feat/login" ∈
      (GitFlow.flow_finish "feature" "feat: login work" envA worldFeat).2.git.localBranches := by
  obtain ⟨hA, hB⟩ := C8_amended
  obtain ⟨a1, a2, a3, a4⟩ := hA "login" ["c-dev"] ["c-feat"] ["y", "y"]
    (some ["# Title", "VERSION=\"0.1.0\"", "rest"])
    (by decide) (by decide) (by decide) (by decide) (by decide) (by decide) (by decide)
    (by decide) (by decide) (by decide)
  obtain ⟨p1, p2, p3, p4⟩ := hB "login" ["c-dev"] ["c-feat"] ["y", "y"]
    (some ["# Title", "VERSION=\"0.1.0\"", "rest"]) "feat: login work"
    (by decide) (by decide) (by decide) (by decide) (by decide) (by decide) (by decide)
    (by decide) (by decide) (by decide) (by decide)
  exact ⟨a1, a2, p1, by simpa using p4⟩

set_option maxRecDepth 8192 in
/-- Claim C5 (counterexample): in a benign run of `flow_release_start`
the real merge of the release branch into `dev` (step 6) happens before
the second merge probe, contradicting "CI, then both probes, before
performing the real merges of steps 6-8". -/
theorem C5_counterexample :
    Event.run "git merge --no-ff release/v0.1.1 -m \x27merge: release/v0.1.1 -> dev\x27" ∈
      (GitFlow.flow_release_start "patch" envA worldOnDev).2.trace ∧
    Event.run "git merge --no-commit --no-ff dev" ∈
      (GitFlow.flow_release_start "patch" envA worldOnDev).2.trace ∧
    (GitFlow.flow_release_start "patch" envA worldOnDev).2.trace.findIdx
        (· == Event.run
          "git merge --no-ff release/v0.1.1 -m \x27merge: release/v0.1.1 -> dev\x27") <
      (GitFlow.flow_release_start "patch" envA worldOnDev).2.trace.findIdx
        (· == Event.run "git merge --no-commit --no-ff dev") := by
  decide

set_option maxRecDepth 8192 in
/-- Claim C5 (amended): after the interactive confirmation is accepted,
the controller runs the CI collaborator, then the merge probe of the
release branch into the trunk branch (probe and abort), then the real
merge of the release branch into trunk, then the merge probe of trunk
into the production branch, then the squash merge into production and the
merge of production back into trunk: the merge/CI events of a benign run,
in order. -/
theorem C5_amended :
    (GitFlow.flow_release_start "patch" envA worldOnDev).1 = Res.ok () ∧
    (GitFlow.flow_release_start "patch" envA worldOnDev).2.trace.filter isMergeOrCi =
      [Event.ci,
       Event.run "git merge --no-commit --no-ff release/v0.1.1",
       Event.run "git merge --abort",
       Event.run "git merge --no-ff release/v0.1.1 -m \x27merge: release/v0.1.1 -> dev\x27",
       Event.run "git merge --no-commit --no-ff dev",
       Event.run "git merge --abort",
       Event.run "git merge --squash dev",
       Event.run "git merge --no-ff main -m \x27merge: main/v0.1.1 -> dev\x27"] := by
  constructor
  · decide
  · decide

/-- Claim C6: for every line offered at the interactive confirmation gate
whose stripped lowercased value is not the affirmative `y`, both release
flows (`flow_release_start` and `flow_release_create_pr`, here on the
benign path that reaches the gate) terminate with exit status 1, and
after the gate's stdin read no mutating event (shell command, CI run or
file write) occurs: everything after the last input event is a print. -/
theorem C6_release_gate_abort (s : String) (rest : List String)
    (hd : pyLower (pyStrip s) ≠ "y") :
    (GitFlow.flow_release_start "patch" envA { worldOnDev with stdin := s :: rest }).1 =
      Res.exited 1 ∧
    (afterLastInput (GitFlow.flow_release_start "patch" envA
        { worldOnDev with stdin := s :: rest }).2.trace).all nonMutB = true ∧
    (GitFlow.flow_release_create_pr "patch" envA { worldOnDev with stdin := s :: rest }).1 =
      Res.exited 1 ∧
    (afterLastInput (GitFlow.flow_release_create_pr "patch" envA
        { worldOnDev with stdin := s :: rest }).2.trace).all nonMutB = true := by
  refine ⟨?_, ?_, ?_, ?_⟩ <;>
  simp +decide [GitFlow.flow_release_start, GitFlow.flow_release_create_pr,
    GitFlow.assert_version_type, GitFlow.get_new_version, GitFlow.get_new_pip_version,
    GitFlow.get_current_branch, GitFlow.git_pull, GitFlow.assert_no_uncommitted,
    GitFlow.git_switch_branch, GitFlow.bump_version, GitFlow.update_changelog,
    GitFlow.update_readme_version, GitFlow.get_release_branch_name, rewriteVersionLine,
    BUMP_VERSION_PROVIDER, readme_file, dev_branch, main_branch, BUMP_EMOJI,
    Cmd.sem, envA, worldOnDev, stateOnDev, stateFeat, worldFeat, hd,
    afterLastInput, nonMutB, isInputB]

/-- Witness for C6: the concrete declined answer `No`. -/
theorem C6_release_gate_abort_witness :
    (GitFlow.flow_release_start "patch" envA { worldOnDev with stdin := ["No"] }).1 =
      Res.exited 1 ∧
    (afterLastInput (GitFlow.flow_release_start "patch" envA
        { worldOnDev with stdin := ["No"] }).2.trace).all nonMutB = true := by
  obtain ⟨h1, h2, h3, h4⟩ := C6_release_gate_abort "No" [] (by decide)
  exact ⟨h1, h2⟩
